import Mathlib

/-!
Verification development for the allocation engine of the topspeedvpnbot
repository.  The Python sources under `src/services/allocator.py`,
`src/services/link_resolver.py`, `src/services/xui_client.py`, `src/models.py`
and `src/db.py` are shallowly embedded: pure functions become Lean functions,
the orchestrator's I/O boundary (remote panel RPCs, randomness, clock) becomes
an explicit environment record, the SQLite state touched by the allocator
becomes an explicit `DbState` value, and Python exceptions become an explicit
`Err` sum returned through `Except`.
-/

/-- Python exception kinds raised on the paths modelled here.
`allocError` is `AllocationError`, `xuiError` is `XUIError`, `linkResolverError`
is `LinkResolverError`; `typeError` models `TypeError`/`ValueError` raised by
`int(...)` on unconvertible values, and `attributeError` models attribute
lookup failure on a `slots=True` dataclass.  `fuelOut` is not a Python
exception: it marks exhaustion of the fuel that bounds the source's unbounded
`while True` name-search loop (no theorem treats it as program behaviour). -/
inductive Err where
  | allocError (msg : String)
  | xuiError (msg : String)
  | linkResolverError (msg : String)
  | typeError (msg : String)
  | attributeError (msg : String)
  | fuelOut
deriving DecidableEq

/-- Python/JSON values as delivered by the panel API (`dict[str, Any]` etc.).
Objects are association lists in key order; JSON-encoded *strings* holding
objects are represented already decoded (the `json.loads` stdlib call is the
embedding boundary), so `.str` here always denotes a plain string value. -/
inductive Py where
  | none
  | bool (b : Bool)
  | int (n : Int)
  | str (s : String)
  | list (xs : List Py)
  | dict (kvs : List (String × Py))

/-- Python truthiness (`bool(x)`), as used by `or` and `if`. -/
def pyTruthy : Py → Bool
  | .none => false
  | .bool b => b
  | .int n => n ≠ 0
  | .str s => s ≠ ""
  | .list xs => !xs.isEmpty
  | .dict kvs => !kvs.isEmpty

/-- Python `a or b`: `a` when truthy, else `b`. -/
def pyOr (a b : Py) : Py := if pyTruthy a then a else b

/-- `d.get(key)` on a Python dict: the stored value, `None` when absent. -/
def pyGet (v : Py) (key : String) : Py :=
  match v with
  | .dict kvs =>
    match kvs.find? (fun kv => kv.1 = key) with
    | some kv => kv.2
    | Option.none => .none
  | _ => .none

/-- `d.get(key)` on an association list already known to be an object. -/
def objGet (kvs : List (String × Py)) (key : String) : Py :=
  match kvs.find? (fun kv => kv.1 = key) with
  | some kv => kv.2
  | Option.none => .none

/-- Iteration `for x in v` for the container shapes that occur here
(lists yield elements, dicts yield their keys); non-iterables yield nothing
(Python would raise `TypeError`, never reached on the data shapes used). -/
def pyElems : Py → List Py
  | .list xs => xs
  | .dict kvs => kvs.map (fun kv => Py.str kv.1)
  | _ => []

/-- `x is False`: identity comparison against the `False` singleton. -/
def isLiteralFalse : Py → Bool
  | .bool false => true
  | _ => false

/-- Python whitespace for `str.strip` / `str.split()` (the ASCII set;
exotic Unicode whitespace is not needed by any input modelled here). -/
def isPySpace (c : Char) : Bool :=
  c = ' ' || c = '\t' || c = '\n' || c = '\x0d' || c = '\x0b' || c = '\x0c'

/-- Python `str.lower()` (ASCII case mapping; the identifiers compared in
this code base are ASCII). -/
def pyLower (s : String) : String := String.mk (s.data.map Char.toLower)

/-- Python `str.strip()`. -/
def pyStrip (s : String) : String :=
  String.mk (((s.data.dropWhile isPySpace).reverse.dropWhile isPySpace).reverse)

/-- `"".join(text.split())`: removing every whitespace character. -/
def stripAllSpace (s : String) : String :=
  String.mk (s.data.filter (fun c => !isPySpace c))

/-- Auxiliary for substring search over character lists. -/
def hasInfixAux (pat : List Char) : List Char → Bool
  | [] => pat.isPrefixOf ([] : List Char)
  | c :: t => pat.isPrefixOf (c :: t) || hasInfixAux pat t

/-- Python `pat in s` substring test. -/
def containsSub (s pat : String) : Bool := hasInfixAux pat.data s.data

/-- Python `str.splitlines()` over the line boundaries that occur in
subscription payloads (`\n`, `\r`, `\r\n`). -/
def pySplitlinesAux : List Char → List Char → List String
  | acc, [] => if acc.isEmpty then [] else [String.mk acc.reverse]
  | acc, '\x0d' :: '\n' :: rest => String.mk acc.reverse :: pySplitlinesAux [] rest
  | acc, '\x0d' :: rest => String.mk acc.reverse :: pySplitlinesAux [] rest
  | acc, '\n' :: rest => String.mk acc.reverse :: pySplitlinesAux [] rest
  | acc, c :: rest => pySplitlinesAux (c :: acc) rest

/-- Python `str.splitlines()`. -/
def pySplitlines (s : String) : List String := pySplitlinesAux [] s.data

mutual

/-- Python `repr` of a value, good-faith rendering (reached only through
`str(...)` applied to container values, which no realistic panel data does). -/
def pyRepr : Py → String
  | .none => "None"
  | .bool true => "True"
  | .bool false => "False"
  | .int n => toString n
  | .str s => "'" ++ s ++ "'"
  | .list xs => "[" ++ String.intercalate ", " (pyReprList xs) ++ "]"
  | .dict kvs => "\x7b" ++ String.intercalate ", " (pyReprObj kvs) ++ "\x7d"

/-- `repr` of each element of a list value. -/
def pyReprList : List Py → List String
  | [] => []
  | x :: xs => pyRepr x :: pyReprList xs

/-- `repr` of each `key: value` entry of a dict value. -/
def pyReprObj : List (String × Py) → List String
  | [] => []
  | (k, v) :: kvs => ("'" ++ k ++ "': " ++ pyRepr v) :: pyReprObj kvs

end

/-- Python `str(x)`. -/
def pyStr : Py → String
  | .none => "None"
  | .bool true => "True"
  | .bool false => "False"
  | .int n => toString n
  | .str s => s
  | .list xs => pyRepr (.list xs)
  | .dict kvs => pyRepr (.dict kvs)

/-- `str(x or "")`, the idiom used for optional string fields. -/
def pyStrOrEmpty (v : Py) : String := pyStr (pyOr v (.str ""))

/-- Python `int(s)` on a string: optional sign, decimal digits, surrounding
whitespace allowed (digit-grouping underscores are not modelled). -/
def pyIntOfString (s : String) : Option Int :=
  let t := pyStrip s
  let core := match t.data with
    | '-' :: ds => some (true, ds)
    | '+' :: ds => some (false, ds)
    | ds => some (false, ds)
  match core with
  | some (neg, ds) =>
    if ds.isEmpty || !ds.all Char.isDigit then Option.none
    else
      let n : Nat := ds.foldl (fun acc c => acc * 10 + (c.toNat - '0'.toNat)) 0
      some (if neg then -(n : Int) else (n : Int))
  | Option.none => Option.none

/-- Python `int(x)`; `none` models the `TypeError`/`ValueError` raise. -/
def pyInt : Py → Option Int
  | .int n => some n
  | .bool true => some 1
  | .bool false => some 0
  | .str s => pyIntOfString s
  | _ => Option.none

/-- `src/models.py` `Profile` (fields used by the allocator; `prefix`/`suffix`
are shortened to `pfx`/`sfx` for the host language). -/
structure Profile where
  id : Int
  panel_id : Int
  name : String
  pfx : String
  sfx : String
  traffic_gb : Int
  expiry_days : Int
  active : Bool
  rr_index : Int
deriving DecidableEq

/-- `src/models.py` `Panel` (fields used by the allocator). -/
structure Panel where
  id : Int
  name : String
  base_url : String
  username : String
  password_enc : String
  active : Bool
deriving DecidableEq

/-- `src/models.py` `ProfilePort`. -/
structure ProfilePort where
  id : Int
  profile_id : Int
  inbound_id : Int
  port : Int
  max_active_clients : Int
  sort_order : Int
deriving DecidableEq

/-- `allocator.py` `_PortRuntime`. -/
structure PortRuntime where
  inbound_id : Int
  port : Int
  max_active_clients : Int
  active_clients : Int
  protocol : String
deriving DecidableEq

/-- `allocator.py` `_StagedClient` (the client payload dict kept in
insertion order). -/
structure StagedClient where
  inbound_id : Int
  config_name : String
  sub_id : String
  client : List (String × Py)

/-- One row of the `issued_configs` table (`src/db.py` schema). -/
structure IssuedConfig where
  profile_id : Int
  panel_id : Int
  inbound_id : Int
  chat_id : Int
  config_name : String
  sub_id : String
  created_at : Int
deriving DecidableEq

/-- The SQLite state the allocator touches: the `profile_counters` table
(profile id ↦ `last_number`) and the `issued_configs` rows in insertion
order.  Comparisons against `config_name` use Lean string equality, which
matches SQLite's default BINARY (case-sensitive) collation on that column. -/
structure DbState where
  counters : List (Int × Int)
  issued : List IssuedConfig

/-- `xui_client.py` `XUISettings`: the dataclass has exactly these three
slots (`slots=True`), in particular no `sub_enable` attribute. -/
structure XUISettings where
  sub_uri : String
  sub_path : String
  sub_port : Int
deriving DecidableEq

/-- One batch of fresh randomness, as drawn by `_build_client_payload`:
`secrets.choice`-built `subId`, `uuid.uuid4().hex` (trojan password),
`secrets.token_urlsafe(16)` (shadowsocks password), `str(uuid.uuid4())`
(vmess/vless id). -/
structure RandVals where
  subId : String
  uuid4hex : String
  tokenUrlsafe : String
  uuid4str : String
deriving DecidableEq

/-- `src/models.py` `AllocationResult`. -/
structure AllocationResult where
  profile_name : String
  quantity : Nat
  links : List String
deriving DecidableEq

/-- Observable side effects of one allocation call, in order: the per-profile
lock acquisition and the remote-panel RPCs issued through `XUIClient`. -/
inductive Effect where
  | acquireLock (profile_id : Int)
  | listInbounds
  | addClients (inbound_id : Int) (clients : List Py)
  | getSettings
  | fetchSubscription (sub_id : String)

/-- The environment of one allocation call: repository lookups, the remote
panel's responses, randomness and the clock.  `fetchSub`/`addClientsRes`
are oracles for the black-box RPCs (spec §6); `subEnable` is the
subscription-enabled flag of the remote panel, used only by the
spec-modelled variant of the orchestrator (see `subEnableSpecRead`). -/
structure AllocEnv where
  profile : Option Profile
  panel : Option Panel
  ports : List ProfilePort
  listInboundsRes : Except Err (List Py)
  getSettingsRes : Except Err XUISettings
  subEnable : Bool
  fetchSub : String → Except Err String
  addClientsRes : Int → List Py → Except Err Unit
  randoms : Nat → RandVals
  nowMs : Int
  now : Int
  nameFuel : Nat

/-- Association-list update with Python-dict semantics: replace in place
when the key exists, append otherwise. -/
def assocSet {α β : Type} [DecidableEq α] (kvs : List (α × β)) (k : α) (v : β) :
    List (α × β) :=
  match kvs with
  | [] => [(k, v)]
  | (k', v') :: rest =>
    if k' = k then (k, v) :: rest else (k', v') :: assocSet rest k v

/-- Association-list lookup (`dict.get`). -/
def assocFind {α β : Type} [DecidableEq α] (kvs : List (α × β)) (k : α) : Option β :=
  match kvs.find? (fun kv => kv.1 = k) with
  | some kv => some kv.2
  | Option.none => Option.none

/-- `allocator.py:220,310`: the dict comprehension
`{int(i.get("id")): i for i in inbounds if i.get("id") is not None}`;
an unconvertible `id` raises (`TypeError`/`ValueError`) out of the
comprehension, later duplicate keys overwrite earlier ones. -/
def inboundById (inbounds : List Py) : Except Err (List (Int × Py)) :=
  inbounds.foldlM
    (fun acc i =>
      match pyGet i "id" with
      | .none => pure acc
      | v =>
        match pyInt v with
        | some k => pure (assocSet acc k i)
        | Option.none => throw (Err.typeError "int() on inbound id"))
    []

/-- `allocator.py:311-317`: group inbounds by `int(inbound.get("port"))`,
silently skipping inbounds whose port does not convert. -/
def inboundByPort (inbounds : List Py) : List (Int × List Py) :=
  inbounds.foldl
    (fun acc i =>
      match pyInt (pyGet i "port") with
      | some p => assocSet acc p (((assocFind acc p).getD []) ++ [i])
      | Option.none => acc)
    []

/-- `allocator.py:320-333`: resolve one configured `ProfilePort` to a remote
inbound — by stored inbound id, else by port number, raising
`AllocationError` on zero or multiple port matches. -/
def resolveInbound (byId : List (Int × Py)) (byPort : List (Int × List Py))
    (pp : ProfilePort) : Except Err Py :=
  match assocFind byId pp.inbound_id with
  | some ib => .ok ib
  | Option.none =>
    match (assocFind byPort pp.port).getD [] with
    | [ib] => .ok ib
    | [] => .error (.allocError ("Inbound for port " ++ toString pp.port ++ " not found on panel"))
    | _ => .error (.allocError ("Multiple inbounds found for port " ++ toString pp.port ++ "; use unique ports"))

/-- `allocator.py:335-340`: a port's active-client count — the entries of
the inbound's `clientStats` whose `enable` field is not the literal `False`
(`enabled is False`). -/
def activeClientCount (inbound : Py) : Int :=
  (((pyElems (pyOr (pyGet inbound "clientStats") (.list []))).filter
      (fun stat => !isLiteralFalse (pyGet stat "enable"))).length : Int)

/-- `allocator.py:342-348`: build one `_PortRuntime` from a resolved inbound;
`int(...)` on the inbound's id/port raises when unconvertible. -/
def mkPortRuntime (pp : ProfilePort) (inbound : Py) : Except Err PortRuntime := do
  let id ← match pyInt (pyGet inbound "id") with
    | some n => pure n
    | Option.none => throw (Err.typeError "int() on inbound id")
  let port ← match pyInt (pyGet inbound "port") with
    | some n => pure n
    | Option.none => throw (Err.typeError "int() on inbound port")
  pure { inbound_id := id, port := port,
         max_active_clients := pp.max_active_clients,
         active_clients := activeClientCount inbound,
         protocol := pyLower (pyStrOrEmpty (pyGet inbound "protocol")) }

/-- `allocator.py` `_build_port_runtime`. -/
def buildPortRuntime (profilePorts : List ProfilePort) (inbounds : List Py) :
    Except Err (List PortRuntime) := do
  let byId ← inboundById inbounds
  let byPort := inboundByPort inbounds
  profilePorts.mapM (fun pp => do mkPortRuntime pp (← resolveInbound byId byPort pp))

/-- `allocator.py:154`: aggregate free capacity
`sum(max(0, p.max_active_clients - p.active_clients) for p in port_runtimes)`. -/
def totalFree (rts : List PortRuntime) : Int :=
  (rts.map (fun p => max 0 (p.max_active_clients - p.active_clients))).sum

/-- `allocator.py:298-306` `_extract_existing_emails`: the set (modelled as a
duplicate-free list) of non-empty stripped, lowercased `clientStats` emails. -/
def extractExistingEmails (inbounds : List Py) : List String :=
  inbounds.foldl
    (fun acc inbound =>
      (pyElems (pyOr (pyGet inbound "clientStats") (.list []))).foldl
        (fun acc stat =>
          let email := pyLower (pyStrip (pyStrOrEmpty (pyGet stat "email")))
          if email ≠ "" ∧ email ∉ acc then acc ++ [email] else acc)
        acc)
    []

/-- `allocator.py:353-362` `_select_next_port_index_fill_first`: first index
whose `active_clients + local_used` is strictly below `max_active_clients`.
The two lists are walked in lockstep (the caller keeps them equally long). -/
def selectFillFirstAux : List PortRuntime → List Int → Nat → Option Nat
  | [], _, _ => Option.none
  | _ :: _, [], _ => Option.none
  | rt :: rts, u :: us, idx =>
    if rt.active_clients + u < rt.max_active_clients then some idx
    else selectFillFirstAux rts us (idx + 1)

/-- `allocator.py` `_select_next_port_index_fill_first`. -/
def selectNextPortIndexFillFirst (rts : List PortRuntime) (localUsed : List Int) :
    Option Nat :=
  selectFillFirstAux rts localUsed 0

/-- `allocator.py:364-398` `_build_client_payload`: the protocol-specific
client record; randomness and the clock are explicit arguments. -/
def buildClientPayload (protocol email : String) (traffic_gb expiry_days : Int)
    (nowMs : Int) (r : RandVals) : Except Err (List (String × Py)) :=
  let expiry : Int := if expiry_days ≤ 0 then 0 else nowMs + expiry_days * 24 * 60 * 60 * 1000
  let totalBytes : Int := traffic_gb * 1024 * 1024 * 1024
  let base : List (String × Py) :=
    [("email", .str email), ("limitIp", .int 0), ("totalGB", .int totalBytes),
     ("expiryTime", .int expiry), ("enable", .bool true), ("subId", .str r.subId),
     ("comment", .str ""), ("tgId", .int 0)]
  if protocol = "trojan" then
    .ok (base ++ [("password", .str r.uuid4hex)])
  else if protocol = "shadowsocks" then
    .ok (base ++ [("password", .str r.tokenUrlsafe)])
  else if protocol = "vmess" ∨ protocol = "vless" then
    .ok (base ++ [("id", .str r.uuid4str), ("security", .str "auto"), ("flow", .str "")])
  else
    .error (.allocError ("Unsupported inbound protocol for auto client creation: " ++ protocol))

/-- Predicate of the name-acceptance test of `_next_unique_name`
(`allocator.py:284-293`): the lowercase form must be absent from the remote
emails and from the batch's claimed names, and the *exact* name must be
absent from the `issued_configs` table (SQLite BINARY-collated `=`). -/
def nameAccepted (db : DbState) (existingEmails namesInRequest : List String)
    (name : String) : Bool :=
  !(pyLower name ∈ existingEmails || pyLower name ∈ namesInRequest) &&
    !db.issued.any (fun row => row.config_name = name)

/-- `allocator.py:268-296` `_next_unique_name`: candidates
`prefix + str(number) + suffix` for `number = start+1, start+2, …`; the first
accepted candidate is claimed (its lowercase form is added to
`names_in_request`).  The source loop is unbounded (`while True`); `fuel`
bounds the search here, `none` standing for a search that has not returned
within `fuel` candidates. -/
def nextUniqueName (db : DbState) (pfx sfx : String)
    (existingEmails namesInRequest : List String) :
    Nat → Int → Option (String × Int × List String)
  | 0, _ => Option.none
  | fuel + 1, number0 =>
    let number := number0 + 1
    let name := pfx ++ toString number ++ sfx
    let lowered := pyLower name
    if lowered ∈ existingEmails || lowered ∈ namesInRequest then
      nextUniqueName db pfx sfx existingEmails namesInRequest fuel number
    else if db.issued.any (fun row => row.config_name = name) then
      nextUniqueName db pfx sfx existingEmails namesInRequest fuel number
    else
      some (name, number, namesInRequest ++ [lowered])

/-- Base64 alphabet test (standard alphabet). -/
def isB64Char (c : Char) : Bool :=
  c.isAlpha || c.isDigit || c = '+' || c = '/'

/-- Six-bit value of a standard-alphabet base64 character. -/
def b64Val (c : Char) : Nat :=
  if 'A' ≤ c ∧ c ≤ 'Z' then c.toNat - 'A'.toNat
  else if 'a' ≤ c ∧ c ≤ 'z' then c.toNat - 'a'.toNat + 26
  else if '0' ≤ c ∧ c ≤ '9' then c.toNat - '0'.toNat + 52
  else if c = '+' then 62
  else 63

/-- Decode a run of six-bit values into bytes; a leftover of one value is
the `binascii` "Invalid padding" error. -/
def b64Groups : List Nat → Option (List Nat)
  | [] => some []
  | [_] => Option.none
  | [a, b] => some [(a * 4 + b / 16) % 256]
  | [a, b, c] => some [(a * 4 + b / 16) % 256, ((b % 16) * 16 + c / 4) % 256]
  | a :: b :: c :: d :: rest => do
    let tail ← b64Groups rest
    pure ([(a * 4 + b / 16) % 256, ((b % 16) * 16 + c / 4) % 256,
           ((c % 4) * 64 + d) % 256] ++ tail)

/-- Model of `base64.b64decode(candidate, validate=False)`: characters
outside the alphabet are discarded, decoding stops at the first `=`
padding character, and a leftover of one six-bit value raises. -/
def b64DecodeLoose (s : String) : Option (List Nat) :=
  let kept := s.data.filter (fun c => isB64Char c || c = '=')
  let body := kept.takeWhile (fun c => c ≠ '=')
  b64Groups (body.map b64Val)

/-- UTF-8 lead-byte dispatch: an ASCII byte yields a character directly, a
valid lead byte opens a multi-byte sequence (continuations still expected,
accumulated bits, minimum legal code point), anything else is dropped. -/
def utf8StartState (b : Nat) : Option (Nat × Nat × Nat) × Option Char :=
  if b < 0x80 then (Option.none, some (Char.ofNat b))
  else if 0xC2 ≤ b && b ≤ 0xDF then (some (1, b - 0xC0, 0x80), Option.none)
  else if 0xE0 ≤ b && b ≤ 0xEF then (some (2, b - 0xE0, 0x800), Option.none)
  else if 0xF0 ≤ b && b ≤ 0xF4 then (some (3, b - 0xF0, 0x10000), Option.none)
  else (Option.none, Option.none)

/-- Model of `bytes.decode("utf-8", errors="ignore")` as a one-pass state
machine: undecodable bytes and malformed/overlong/surrogate sequences are
dropped (CPython's maximal-subpart skipping is approximated; no claim
depends on malformed input). -/
def utf8IgnoreAux : Option (Nat × Nat × Nat) → List Nat → List Char
  | _, [] => []
  | Option.none, b :: rest =>
    (match utf8StartState b with
     | (st, some c) => c :: utf8IgnoreAux st rest
     | (st, Option.none) => utf8IgnoreAux st rest)
  | some (need, acc, minCp), b :: rest =>
    if 0x80 ≤ b && b ≤ 0xBF then
      let acc' := acc * 64 + (b - 0x80)
      if need ≤ 1 then
        if minCp ≤ acc' && acc' ≤ 0x10FFFF && !(0xD800 ≤ acc' && acc' ≤ 0xDFFF) then
          Char.ofNat acc' :: utf8IgnoreAux Option.none rest
        else utf8IgnoreAux Option.none rest
      else utf8IgnoreAux (some (need - 1, acc', minCp)) rest
    else
      match utf8StartState b with
      | (st, some c) => c :: utf8IgnoreAux st rest
      | (st, Option.none) => utf8IgnoreAux st rest

/-- `bytes.decode("utf-8", errors="ignore")`. -/
def utf8DecodeIgnore (bs : List Nat) : String := String.mk (utf8IgnoreAux Option.none bs)

/-- `link_resolver.py:44-63` `_maybe_decode_base64`. -/
def maybeDecodeBase64 (text : String) : Option String :=
  let candidate := stripAllSpace text
  if candidate = "" then Option.none
  else if containsSub candidate "://" then Option.none
  else
    let pad := candidate.length % 4
    let candidate := if pad ≠ 0 then candidate ++ String.mk (List.replicate (4 - pad) '=') else candidate
    match b64DecodeLoose candidate with
    | Option.none => Option.none
    | some bytes =>
      let decoded := pyStrip (utf8DecodeIgnore bytes)
      if containsSub decoded "://" then some decoded else Option.none

/-- `link_resolver.py:12-34` `extract_links`: strip, optionally base64-decode,
keep the stripped lines containing `"://"`, deduplicated in first-seen order
(the source's `seen` set always holds exactly the elements of `links`),
failing when the payload is empty or yields no link. -/
def extractLinks (rawText : String) : Except Err (List String) :=
  let text := pyStrip rawText
  if text = "" then .error (.linkResolverError "Subscription response is empty")
  else
    let finalText := match maybeDecodeBase64 text with
      | some d => d
      | Option.none => text
    let links := (pySplitlines finalText).foldl
      (fun acc line =>
        let value := pyStrip line
        if value = "" || !containsSub value "://" then acc
        else if value ∈ acc then acc
        else acc ++ [value])
      []
    if links = [] then .error (.linkResolverError "No direct links found in subscription content")
    else .ok links

/-- Characters legal in a URL scheme after the first letter. -/
def isSchemeChar (c : Char) : Bool :=
  c.isAlphanum || c = '+' || c = '-' || c = '.'

/-- Model of `urllib.parse.urlsplit`'s scheme removal: when the URL starts
with a well-formed `scheme:`, the remainder; otherwise the URL itself. -/
def splitScheme (url : String) : String :=
  let cs := url.data
  match cs.findIdx? (fun c => c = ':') with
  | some i =>
    if 0 < i then
      match cs.take i with
      | c0 :: restc =>
        if c0.isAlpha && restc.all isSchemeChar then String.mk (cs.drop (i + 1)) else url
      | [] => url
    else url
  | Option.none => url

/-- Model of `urlsplit(...).netloc`: present only after a `//`. -/
def urlNetloc (url : String) : String :=
  match (splitScheme url).data with
  | '/' :: '/' :: t => String.mk (t.takeWhile (fun c => c ≠ '/' && c ≠ '?' && c ≠ '#'))
  | _ => ""

/-- The netloc's host-and-port part: everything after the last `@`
(`netloc.rpartition('@')`). -/
def afterLastAt (s : String) : String :=
  String.mk ((s.data.reverse.takeWhile (fun c => c ≠ '@')).reverse)

/-- Model of `urlparse(...).hostname or ""`: the netloc after the last `@`,
bracket-stripped for IPv6 literals, lowercased; `""` when there is none. -/
def urlHostname (url : String) : String :=
  let host :=
    match (afterLastAt (urlNetloc url)).data with
    | '[' :: t => String.mk (t.takeWhile (fun c => c ≠ ']'))
    | cs => String.mk (cs.takeWhile (fun c => c ≠ ':'))
  pyLower host

/-- Model of `urlparse(...).port`: the digits after the host's colon
(`none` both for an absent and — deviating from CPython, which raises on
access — a malformed port; no modelled input has a malformed port). -/
def urlPort (url : String) : Option Int :=
  let portStr :=
    match (afterLastAt (urlNetloc url)).data with
    | '[' :: t =>
      (match t.dropWhile (fun c => c ≠ ']') with
       | ']' :: ':' :: ps => ps
       | _ => [])
    | cs =>
      (match cs.dropWhile (fun c => c ≠ ':') with
       | ':' :: ps => ps
       | _ => [])
  if !portStr.isEmpty && portStr.all Char.isDigit then
    some ((portStr.foldl (fun acc c => acc * 10 + (c.toNat - '0'.toNat)) 0 : Nat) : Int)
  else Option.none

/-- UTF-8 encoding of one character (code points are valid by construction). -/
def utf8BytesChar (c : Char) : List Nat :=
  let n := c.toNat
  if n < 0x80 then [n]
  else if n < 0x800 then [0xC0 + n / 64, 0x80 + n % 64]
  else if n < 0x10000 then [0xE0 + n / 4096, 0x80 + (n / 64) % 64, 0x80 + n % 64]
  else [0xF0 + n / 262144, 0x80 + (n / 4096) % 64, 0x80 + (n / 64) % 64, 0x80 + n % 64]

/-- `str.encode()`: the UTF-8 bytes of a string. -/
def utf8Bytes (s : String) : List Nat := (s.data.map utf8BytesChar).flatten

/-- Uppercase hexadecimal digit (for percent-escapes). -/
def hexDigitUpper (n : Nat) : Char :=
  if n < 10 then Char.ofNat ('0'.toNat + n) else Char.ofNat ('A'.toNat + n - 10)

/-- Lowercase hexadecimal digit (for JSON `\u00xx` escapes). -/
def hexDigitLower (n : Nat) : Char :=
  if n < 10 then Char.ofNat ('0'.toNat + n) else Char.ofNat ('a'.toNat + n - 10)

/-- One percent-escaped byte, `%XX`. -/
def percentByte (b : Nat) : String :=
  String.mk ['%', hexDigitUpper (b / 16), hexDigitUpper (b % 16)]

/-- `urllib.parse.quote`'s always-safe characters (the set left intact both
by `quote_plus(s)` and by `quote(s, safe="-._~")`). -/
def isQuoteSafe (c : Char) : Bool :=
  c.isAlphanum && c.toNat < 0x80 || c = '_' || c = '.' || c = '-' || c = '~'

/-- `urllib.parse.quote_plus(s)` (the `urlencode` default). -/
def quotePlus (s : String) : String :=
  String.join (s.data.map (fun c =>
    if isQuoteSafe c then String.mk [c]
    else if c = ' ' then "+"
    else String.join ((utf8BytesChar c).map percentByte)))

/-- `urllib.parse.quote(s, safe="-._~")` (the fragment encoding). -/
def quoteSafe (s : String) : String :=
  String.join (s.data.map (fun c =>
    if isQuoteSafe c then String.mk [c]
    else String.join ((utf8BytesChar c).map percentByte)))

/-- `urllib.parse.urlencode` over a string-valued dict in key order. -/
def urlencodeParams (ps : List (String × String)) : String :=
  String.intercalate "&" (ps.map (fun kv => quotePlus kv.1 ++ "=" ++ quotePlus kv.2))

/-- Standard base64 alphabet. -/
def b64Char (n : Nat) : Char :=
  if n < 26 then Char.ofNat ('A'.toNat + n)
  else if n < 52 then Char.ofNat ('a'.toNat + n - 26)
  else if n < 62 then Char.ofNat ('0'.toNat + n - 52)
  else if n = 62 then '+' else '/'

/-- URL-safe base64 alphabet. -/
def b64UrlChar (n : Nat) : Char :=
  if n = 62 then '-' else if n = 63 then '_' else b64Char n

/-- Base64-encode bytes with `=` padding over a given alphabet. -/
def b64EncodeAux (alph : Nat → Char) : List Nat → List Char
  | [] => []
  | [a] => [alph (a / 4), alph ((a % 4) * 16), '=', '=']
  | [a, b] => [alph (a / 4), alph ((a % 4) * 16 + b / 16), alph ((b % 16) * 4), '=']
  | a :: b :: c :: rest =>
    [alph (a / 4), alph ((a % 4) * 16 + b / 16), alph ((b % 16) * 4 + c / 64),
     alph (c % 64)] ++ b64EncodeAux alph rest

/-- `base64.b64encode(...).decode()`. -/
def b64Encode (bs : List Nat) : String := String.mk (b64EncodeAux b64Char bs)

/-- `base64.urlsafe_b64encode(...).decode().rstrip("=")`. -/
def b64UrlsafeNoPad (bs : List Nat) : String :=
  String.mk (((b64EncodeAux b64UrlChar bs).reverse.dropWhile (fun c => c = '=')).reverse)

/-- JSON string escaping as produced by `json.dumps(..., ensure_ascii=False)`. -/
def jsonEscapeChar (c : Char) : String :=
  if c = '"' then "\\\""
  else if c = '\\' then "\\\\"
  else if c = '\n' then "\\n"
  else if c = '\t' then "\\t"
  else if c = '\x0d' then "\\r"
  else if c = '\x08' then "\\b"
  else if c = '\x0c' then "\\f"
  else if c.toNat < 0x20 then
    "\\u00" ++ String.mk [hexDigitLower (c.toNat / 16), hexDigitLower (c.toNat % 16)]
  else String.mk [c]

/-- A JSON string literal. -/
def jsonStrLit (s : String) : String :=
  "\"" ++ String.join (s.data.map jsonEscapeChar) ++ "\""

/-- `json.dumps(d, ensure_ascii=False, separators=(",", ":"))` for a dict of
strings in key-insertion order. -/
def jsonObjOfStrs (fields : List (String × String)) : String :=
  "\x7b" ++
    String.intercalate "," (fields.map (fun kv => jsonStrLit kv.1 ++ ":" ++ jsonStrLit kv.2)) ++
    "\x7d"

/-- `allocator.py:400-411` `_parse_json_obj`: a dict value is returned as-is,
anything else yields `{}`.  (The source additionally accepts a *string*
containing JSON and runs `json.loads` on it; panel values are represented
here already decoded — see `Py` — so that branch is subsumed, and a
remaining `.str` denotes a non-JSON-object string, which also yields `{}`.) -/
def parseJsonObj : Py → List (String × Py)
  | .dict kvs => kvs
  | _ => []

/-- `allocator.py:440-448` `_first_str` over the elements of a list value. -/
def firstStrAux : List Py → String
  | [] => ""
  | .str s :: rest => if pyStrip s ≠ "" then pyStrip s else firstStrAux rest
  | _ :: rest => firstStrAux rest

/-- `allocator.py:440-448` `_first_str`. -/
def firstStr : Py → String
  | .str s => pyStrip s
  | .list xs => firstStrAux xs
  | _ => ""

/-- `allocator.py:450-480` `_apply_stream_query`. -/
def applyStreamQuery (params : List (String × String)) (stream : List (String × Py))
    (network : String) : List (String × String) :=
  let net := pyLower network
  if net = "tcp" then
    let tcp := parseJsonObj (objGet stream "tcpSettings")
    let header := parseJsonObj (objGet tcp "header")
    let headerType := pyStr (pyOr (objGet header "type") (.str "none"))
    let params := assocSet params "headerType" headerType
    if headerType = "http" then
      let request := parseJsonObj (objGet header "request")
      let path := firstStr (objGet request "path")
      let params := if path ≠ "" then assocSet params "path" path else params
      let headers := parseJsonObj (objGet request "headers")
      let host := firstStr (objGet headers "Host")
      if host ≠ "" then assocSet params "host" host else params
    else params
  else if net = "ws" then
    let ws := parseJsonObj (objGet stream "wsSettings")
    let path := pyStrOrEmpty (objGet ws "path")
    let params := if path ≠ "" then assocSet params "path" path else params
    let headers := parseJsonObj (objGet ws "headers")
    let host := firstStr (objGet headers "Host")
    if host ≠ "" then assocSet params "host" host else params
  else if net = "grpc" then
    let grpc := parseJsonObj (objGet stream "grpcSettings")
    let service := pyStrOrEmpty (objGet grpc "serviceName")
    if service ≠ "" then assocSet params "serviceName" service else params
  else params

/-- `allocator.py:482-516` `_apply_security_query`. -/
def applySecurityQuery (params : List (String × String)) (stream : List (String × Py))
    (security : String) : List (String × String) :=
  let sec := pyLower security
  if sec = "tls" then
    let tls := parseJsonObj (objGet stream "tlsSettings")
    let sni := pyStrOrEmpty (objGet tls "serverName")
    let params := if sni ≠ "" then assocSet params "sni" sni else params
    let params :=
      match objGet tls "alpn" with
      | .list xs =>
        if !xs.isEmpty then
          assocSet params "alpn" (String.intercalate "," ((xs.map pyStr).filter (fun x => x ≠ "")))
        else params
      | _ => params
    let fp := pyStrOrEmpty (objGet tls "fingerprint")
    if fp ≠ "" then assocSet params "fp" fp else params
  else if sec = "reality" then
    let reality := parseJsonObj (objGet stream "realitySettings")
    let params :=
      match objGet reality "serverNames" with
      | .list xs =>
        if !xs.isEmpty then
          let sni := firstStrAux xs
          if sni ≠ "" then assocSet params "sni" sni else params
        else params
      | _ => params
    let pbk := pyStrOrEmpty (objGet reality "publicKey")
    let params := if pbk ≠ "" then assocSet params "pbk" pbk else params
    let params :=
      match objGet reality "shortIds" with
      | .list xs =>
        if !xs.isEmpty then
          let sid := firstStrAux xs
          if sid ≠ "" then assocSet params "sid" sid else params
        else params
      | _ => params
    let spx := pyStrOrEmpty (objGet reality "spiderX")
    let params := if spx ≠ "" then assocSet params "spx" spx else params
    let fp := pyStrOrEmpty (objGet reality "fingerprint")
    if fp ≠ "" then assocSet params "fp" fp else params
  else params

/-- `allocator.py:413-438` `_extract_host_port`: the panel host (with an
`externalProxy` override from the stream settings taking precedence) and the
inbound's port (override, else declared port, else the panel URL's port). -/
def extractHostPort (baseUrl : String) (inbound : Py) (stream : List (String × Py)) :
    String × Int :=
  let host0 := urlHostname baseUrl
  let port0 : Int :=
    match pyInt (pyGet inbound "port") with
    | some n => n
    | Option.none => 0
  let hp : String × Int :=
    match objGet stream "externalProxy" with
    | .list (first :: _) =>
      match first with
      | .dict kvs =>
        let extHost := pyStrip (pyStrOrEmpty (objGet kvs "dest"))
        let h := if extHost ≠ "" then extHost else host0
        let extPort : Int :=
          match pyInt (objGet kvs "port") with
          | some n => n
          | Option.none => 0
        (h, if extPort > 0 then extPort else port0)
      | _ => (host0, port0)
    | _ => (host0, port0)
  let port2 : Int :=
    if hp.2 ≤ 0 then
      match urlPort baseUrl with
      | some p => if p ≠ 0 then p else hp.2
      | Option.none => hp.2
    else hp.2
  (hp.1, port2)

/-- The `vless://` URI shape of `allocator.py:555`. -/
def vlessLink (clientId host : String) (port : Int) (query fragment : String) : String :=
  "vless://" ++ clientId ++ "@" ++ host ++ ":" ++ toString port ++ "?" ++ query ++ "#" ++ fragment

/-- The `trojan://` URI shape of `allocator.py:564`. -/
def trojanLink (password host : String) (port : Int) (query fragment : String) : String :=
  "trojan://" ++ password ++ "@" ++ host ++ ":" ++ toString port ++ "?" ++ query ++ "#" ++ fragment

/-- The `ss://` URI shape of `allocator.py:573`. -/
def ssLink (userinfo host : String) (port : Int) (fragment : String) : String :=
  "ss://" ++ userinfo ++ "@" ++ host ++ ":" ++ toString port ++ "#" ++ fragment

/-- The `vmess://` URI shape of `allocator.py:604`. -/
def vmessLink (token : String) : String := "vmess://" ++ token

/-- The vmess JSON payload of `allocator.py:579-600`, fields in the source's
dict-literal insertion order with the post-assignments already substituted. -/
def vmessFields (configName host : String) (port : Int)
    (clientId scy network typeF hostF pathF tls sni : String) :
    List (String × String) :=
  [("v", "2"), ("ps", configName), ("add", host), ("port", toString port),
   ("id", clientId), ("aid", "0"), ("scy", scy), ("net", network),
   ("type", typeF), ("host", hostF), ("path", pathF), ("tls", tls), ("sni", sni)]

/-- `allocator.py:518-606` `_build_direct_link_fallback`. -/
def buildDirectLinkFallback (inbound : Option Py) (client : List (String × Py))
    (configName baseUrl : String) : Option String :=
  match inbound with
  | Option.none => Option.none
  | some ib =>
    if !pyTruthy ib then Option.none
    else
      let protocol := pyLower (pyStrOrEmpty (pyGet ib "protocol"))
      let stream := parseJsonObj (pyGet ib "streamSettings")
      let settings := parseJsonObj (pyGet ib "settings")
      let network := pyStr (pyOr (objGet stream "network") (.str "tcp"))
      let security := pyStr (pyOr (objGet stream "security") (.str "none"))
      let hp := extractHostPort baseUrl ib stream
      if hp.1 = "" || hp.2 ≤ 0 then Option.none
      else
        let fragment := quoteSafe configName
        if protocol = "vless" then
          let clientId := pyStrOrEmpty (objGet client "id")
          if clientId = "" then Option.none
          else
            let params : List (String × String) :=
              [("type", network), ("security", security), ("encryption", "none")]
            let flow := pyStrOrEmpty (objGet client "flow")
            let params := if flow ≠ "" then assocSet params "flow" flow else params
            let params := applyStreamQuery params stream network
            let params := applySecurityQuery params stream security
            some (vlessLink clientId hp.1 hp.2 (urlencodeParams params) fragment)
        else if protocol = "trojan" then
          let password := pyStrOrEmpty (objGet client "password")
          if password = "" then Option.none
          else
            let params : List (String × String) := [("type", network), ("security", security)]
            let params := applyStreamQuery params stream network
            let params := applySecurityQuery params stream security
            some (trojanLink password hp.1 hp.2 (urlencodeParams params) fragment)
        else if protocol = "shadowsocks" then
          let password := pyStrOrEmpty (objGet client "password")
          let method := pyStr (pyOr (objGet settings "method") (.str "aes-128-gcm"))
          if password = "" then Option.none
          else
            let userinfo := b64UrlsafeNoPad (utf8Bytes (method ++ ":" ++ password))
            some (ssLink userinfo hp.1 hp.2 fragment)
        else if protocol = "vmess" then
          let clientId := pyStrOrEmpty (objGet client "id")
          if clientId = "" then Option.none
          else
            let params := applySecurityQuery (applyStreamQuery [] stream network) stream security
            let token := b64Encode (utf8Bytes (jsonObjOfStrs (vmessFields configName hp.1 hp.2
              clientId (pyStr (pyOr (objGet client "security") (.str "auto"))) network
              ((assocFind params "headerType").getD "none")
              ((assocFind params "host").getD "")
              ((assocFind params "path").getD ((assocFind params "serviceName").getD ""))
              (if security = "tls" || security = "reality" then "tls" else "")
              ((assocFind params "sni").getD ""))))
            some (vmessLink token)
        else Option.none

/-- Default `_PortRuntime` value, used only as `List.getD` filler. -/
def rtDefault : PortRuntime := ⟨0, 0, 0, 0, ""⟩

/-- The faithful semantics of the `settings.sub_enable` read at
`allocator.py:225`: `XUISettings` (`xui_client.py:15-19`) is a `slots=True`
dataclass whose only slots are `sub_uri`, `sub_path` and `sub_port`, so the
attribute access raises `AttributeError` for every settings value. -/
def subEnableAttr (_ : XUISettings) : Except Err Bool :=
  .error (.attributeError "'XUISettings' object has no attribute 'sub_enable'")

/-- Modelled from the spec: the source reads a `sub_enable` attribute that no
class in the repository defines (see `subEnableAttr`); per the spec — "prefer
the panel's managed subscription fetch when subscriptions are enabled
remotely" — the read is modelled as returning the panel's
subscription-enabled flag, supplied by the environment. -/
def subEnableSpecRead (env : AllocEnv) (_ : XUISettings) : Except Err Bool :=
  .ok env.subEnable

/-- `allocator.py:182-214`: the staging loop — for each of the `quantity`
units draw the next unique name, pick a port fill-first, build the protocol
payload, and record the staged client (`sub_id` is `str(client["subId"])`,
always present in the payload). -/
def stageLoop (env : AllocEnv) (db : DbState) (p : Profile) (rts : List PortRuntime)
    (emails : List String) :
    Nat → Nat → Int → List StagedClient → List Int → List String →
    Except Err (List StagedClient × Int × List Int)
  | 0, _, last, staged, used, _ => .ok (staged, last, used)
  | rem + 1, idx, last, staged, used, names =>
    match nextUniqueName db p.pfx p.sfx emails names env.nameFuel last with
    | Option.none => .error .fuelOut
    | some (name, last', names') =>
      match selectNextPortIndexFillFirst rts used with
      | Option.none => .error (.allocError "Capacity check failed during allocation")
      | some sidx =>
        let rt := rts.getD sidx rtDefault
        let used' := used.set sidx (used.getD sidx 0 + 1)
        match buildClientPayload rt.protocol name p.traffic_gb p.expiry_days env.nowMs
            (env.randoms idx) with
        | .error e => .error e
        | .ok client =>
          stageLoop env db p rts emails rem (idx + 1) last'
            (staged ++ [⟨rt.inbound_id, name, pyStr (objGet client "subId"), client⟩])
            used' names'

/-- `allocator.py:178,206`: the `assigned_by_inbound` grouping — clients
grouped by inbound id, keys in first-appearance order, clients in staging
order (built incrementally by the source loop, with the same result). -/
def groupByInbound (staged : List StagedClient) : List (Int × List Py) :=
  staged.foldl
    (fun acc a =>
      assocSet acc a.inbound_id (((assocFind acc a.inbound_id).getD []) ++ [Py.dict a.client]))
    []

/-- `allocator.py:216-217`: one `add_clients` RPC per inbound group, in
group order; a failure aborts the remaining calls. -/
def addClientsPhase (env : AllocEnv) : List (Int × List Py) → Except Err Unit × List Effect
  | [] => (.ok (), [])
  | (inb, clients) :: rest =>
    match env.addClientsRes inb clients with
    | .ok _ =>
      let next := addClientsPhase env rest
      (next.1, Effect.addClients inb clients :: next.2)
    | .error e => (.error e, [Effect.addClients inb clients])

/-- `allocator.py:225-230`: one client's `try: fetch + extract` step.  When
subscriptions are on, the subscription text is fetched and parsed,
`XUIError`/`LinkResolverError` being swallowed into "no links" (any other
exception propagates); when off, no fetch happens and the links start empty. -/
def linkStepFetch (env : AllocEnv) (subEnable : Bool) (sub_id : String) :
    Except Err (List String) × List Effect :=
  if subEnable then
    match env.fetchSub sub_id with
    | .ok raw =>
      (match extractLinks raw with
       | .ok ls => (.ok ls, [Effect.fetchSubscription sub_id])
       | .error (.xuiError _) => (.ok [], [Effect.fetchSubscription sub_id])
       | .error (.linkResolverError _) => (.ok [], [Effect.fetchSubscription sub_id])
       | .error e => (.error e, [Effect.fetchSubscription sub_id]))
    | .error (.xuiError _) => (.ok [], [Effect.fetchSubscription sub_id])
    | .error (.linkResolverError _) => (.ok [], [Effect.fetchSubscription sub_id])
    | .error e => (.error e, [Effect.fetchSubscription sub_id])
  else (.ok [], [])

/-- `allocator.py:223-248`: the per-client link resolution loop.  Each
iteration reads `settings.sub_enable`, runs the fetch step, falls back to the
direct link builder when the step yields no links, and aborts the batch with
`AllocationError` when a client ends up with no link at all; every client's
links are appended to the accumulated list. -/
def linkLoop (env : AllocEnv) (subRead : XUISettings → Except Err Bool)
    (settings : XUISettings) (byId : List (Int × Py)) (baseUrl : String) :
    List StagedClient → List String → Except Err (List String) × List Effect
  | [], acc => (.ok acc, [])
  | a :: rest, acc =>
    match subRead settings with
    | .error e => (.error e, [])
    | .ok subEnable =>
      let step := linkStepFetch env subEnable a.sub_id
      match step.1 with
      | .error e => (.error e, step.2)
      | .ok links0 =>
        let links :=
          if links0.isEmpty then
            match buildDirectLinkFallback (assocFind byId a.inbound_id) a.client
                a.config_name baseUrl with
            | some f => [f]
            | Option.none => []
          else links0
        if links.isEmpty then
          (.error (.allocError ("Failed to build direct link for config `" ++ a.config_name ++ "`")),
           step.2)
        else
          let next := linkLoop env subRead settings byId baseUrl rest (acc ++ links)
          (next.1, step.2 ++ next.2)

/-- `allocator.py:129-266` `_allocate_locked`, with the `sub_enable`
attribute read abstracted as `subRead` (instantiated faithfully by
`subEnableAttr`, and per the spec by `subEnableSpecRead`).  The `crypto`
collaborator (out of scope, spec §1) is modelled as succeeding; an empty
panel URL is rejected by the `XUIClient` constructor
(`xui_client.py:239-245`). -/
def allocLocked (subRead : XUISettings → Except Err Bool) (env : AllocEnv)
    (db : DbState) (quantity : Nat) (chat_id : Int) :
    Except Err (AllocationResult × DbState) × List Effect :=
  match env.profile with
  | Option.none => (.error (.allocError "Profile is not available"), [])
  | some p =>
    if !p.active then (.error (.allocError "Profile is not available"), [])
    else
      match env.panel with
      | Option.none => (.error (.allocError "Panel is not available"), [])
      | some panel =>
        if !panel.active then (.error (.allocError "Panel is not available"), [])
        else if env.ports.isEmpty then
          (.error (.allocError "Profile has no ports configured"), [])
        else if pyStrip panel.base_url = "" then
          (.error (.xuiError "Empty panel URL"), [])
        else
          match env.listInboundsRes with
          | .error e => (.error e, [Effect.listInbounds])
          | .ok inbounds =>
            match buildPortRuntime env.ports inbounds with
            | .error e => (.error e, [Effect.listInbounds])
            | .ok rts =>
              if totalFree rts < (quantity : Int) then
                (.error (.allocError ("Insufficient capacity. Free=" ++ toString (totalFree rts) ++
                   ", requested=" ++ toString quantity ++ ".")),
                 [Effect.listInbounds])
              else
                let emails := extractExistingEmails inbounds
                let db1 : DbState :=
                  if (assocFind db.counters p.id).isSome then db
                  else { db with counters := db.counters ++ [(p.id, 0)] }
                match assocFind db1.counters p.id with
                | Option.none => (.error (.allocError "Counter row missing"), [Effect.listInbounds])
                | some lastNumber =>
                  match stageLoop env db1 p rts emails quantity 0 lastNumber []
                      (List.replicate rts.length 0) [] with
                  | .error e => (.error e, [Effect.listInbounds])
                  | .ok (staged, lastFinal, _usedF) =>
                    let addRes := addClientsPhase env (groupByInbound staged)
                    match addRes.1 with
                    | .error e => (.error e, [Effect.listInbounds] ++ addRes.2)
                    | .ok _ =>
                      match inboundById inbounds with
                      | .error e => (.error e, [Effect.listInbounds] ++ addRes.2)
                      | .ok byId =>
                        match env.getSettingsRes with
                        | .error e =>
                          (.error e, [Effect.listInbounds] ++ addRes.2 ++ [Effect.getSettings])
                        | .ok settings =>
                          let lk := linkLoop env subRead settings byId panel.base_url staged []
                          let effs := [Effect.listInbounds] ++ addRes.2 ++
                            [Effect.getSettings] ++ lk.2
                          match lk.1 with
                          | .error e => (.error e, effs)
                          | .ok allLinks =>
                            let rows := staged.map (fun a =>
                              { profile_id := p.id, panel_id := panel.id,
                                inbound_id := a.inbound_id, chat_id := chat_id,
                                config_name := a.config_name, sub_id := a.sub_id,
                                created_at := env.now : IssuedConfig })
                            let db2 : DbState :=
                              { counters := assocSet db1.counters p.id lastFinal,
                                issued := db1.issued ++ rows }
                            (.ok ({ profile_name := p.name, quantity := quantity,
                                    links := allLinks }, db2), effs)

/-- `allocator.py:115-127` `allocate_and_create` (with `subRead` abstracted):
the quantity gate precedes the per-profile lock acquisition and everything
else; the transaction rolls back on error, so the new database state exists
only in the success value. -/
def allocateAndCreateWith (subRead : XUISettings → Except Err Bool) (env : AllocEnv)
    (db : DbState) (profile_id : Int) (quantity : Nat) (chat_id : Int) :
    Except Err (AllocationResult × DbState) × List Effect :=
  if !(quantity = 10 || quantity = 50 || quantity = 100) then
    (.error (.allocError "Quantity must be one of: 10, 50, 100"), [])
  else
    let inner := allocLocked subRead env db quantity chat_id
    (inner.1, Effect.acquireLock profile_id :: inner.2)

/-- The orchestrator as written: the `sub_enable` read raises. -/
def allocateAndCreate (env : AllocEnv) (db : DbState) (profile_id : Int)
    (quantity : Nat) (chat_id : Int) :
    Except Err (AllocationResult × DbState) × List Effect :=
  allocateAndCreateWith subEnableAttr env db profile_id quantity chat_id

/-- The orchestrator with the `sub_enable` read modelled from the spec
(see `subEnableSpecRead`). -/
def allocateAndCreateSub (env : AllocEnv) (db : DbState) (profile_id : Int)
    (quantity : Nat) (chat_id : Int) :
    Except Err (AllocationResult × DbState) × List Effect :=
  allocateAndCreateWith (subEnableSpecRead env) env db profile_id quantity chat_id

/-- One per-port entry of the capacity report (`allocator.py:103-112`). -/
structure CapacityPortEntry where
  port : Int
  inbound_id : Int
  used : Int
  max : Int
  free : Int
deriving DecidableEq

/-- The capacity report (`allocator.py:98-113`). -/
structure CapacityReport where
  profile_name : String
  total_capacity : Int
  used : Int
  free : Int
  ports : List CapacityPortEntry
deriving DecidableEq

/-- `allocator.py:71-113` `get_capacity_report`. -/
def getCapacityReport (env : AllocEnv) : Except Err CapacityReport :=
  match env.profile with
  | Option.none => .error (.allocError "Profile not found")
  | some p =>
    match env.panel with
    | Option.none => .error (.allocError "Panel not found for profile")
    | some panel =>
      if env.ports.isEmpty then .error (.allocError "Profile has no configured ports")
      else if pyStrip panel.base_url = "" then .error (.xuiError "Empty panel URL")
      else
        match env.listInboundsRes with
        | .error e => .error e
        | .ok inbounds =>
          match buildPortRuntime env.ports inbounds with
          | .error e => .error e
          | .ok rts =>
            .ok { profile_name := p.name,
                  total_capacity := (rts.map (fun r => r.max_active_clients)).sum,
                  used := (rts.map (fun r => r.active_clients)).sum,
                  free := (rts.map (fun r => r.max_active_clients)).sum -
                    (rts.map (fun r => r.active_clients)).sum,
                  ports := rts.map (fun r =>
                    { port := r.port, inbound_id := r.inbound_id, used := r.active_clients,
                      max := r.max_active_clients,
                      free := max 0 (r.max_active_clients - r.active_clients) }) }

/-! ### Concrete fixtures used by witnesses and counterexamples -/

/-- An empty database. -/
def dbEmpty : DbState := ⟨[], []⟩

/-- A deterministic randomness stream. -/
def randFixed : Nat → RandVals :=
  fun n => ⟨"sub" ++ toString n, "hex" ++ toString n, "tok" ++ toString n, "uuid" ++ toString n⟩

/-- A well-formed trojan inbound with no known clients. -/
def ibMain : Py :=
  .dict [("id", .int 7), ("port", .int 443), ("protocol", .str "trojan"),
         ("clientStats", .list [])]

/-- A port binding for `ibMain` with room for 20 clients. -/
def ppMain : ProfilePort := ⟨1, 1, 7, 443, 20, 0⟩

/-- An active profile. -/
def profMain : Profile := ⟨1, 1, "10h", "vip", "", 50, 30, true, 0⟩

/-- An active panel. -/
def panelMain : Panel := ⟨1, "panel", "https://panel.example:2053", "admin", "enc", true⟩

/-- A healthy environment whose subscription endpoint returns two links per
client. -/
def envMain : AllocEnv :=
  { profile := some profMain, panel := some panelMain, ports := [ppMain],
    listInboundsRes := .ok [ibMain], getSettingsRes := .ok ⟨"", "/sub/", 0⟩,
    subEnable := true, fetchSub := fun _ => .ok "vless://left\nvless://right",
    addClientsRes := fun _ _ => .ok (), randoms := randFixed,
    nowMs := 1000, now := 1, nameFuel := 50 }

/-! ### Claim theorems -/

/-- C9: a quantity outside `{10, 50, 100}` is rejected by `allocate_and_create`
with `AllocationError` immediately: the effect trace is empty — no per-profile
lock acquisition, no database operation and no remote-panel call ever
happens — and no new database state is produced. -/
theorem quantity_gate_rejects_first (env : AllocEnv) (db : DbState) (pid : Int)
    (q : Nat) (chat : Int) (hq : ¬(q = 10 ∨ q = 50 ∨ q = 100)) :
    allocateAndCreate env db pid q chat =
      (.error (.allocError "Quantity must be one of: 10, 50, 100"), []) := by
  have hb : (q = 10 || q = 50 || q = 100) = false := by
    rcases Nat.decEq q 10 with h10 | h10 <;>
    rcases Nat.decEq q 50 with h50 | h50 <;>
    rcases Nat.decEq q 100 with h100 | h100 <;>
      simp_all
  simp [allocateAndCreate, allocateAndCreateWith, hb]

/-- Witness for C9 at quantity 7. -/
theorem quantity_gate_rejects_first_witness :
    allocateAndCreate envMain dbEmpty 1 7 9 =
      (.error (.allocError "Quantity must be one of: 10, 50, 100"), []) :=
  quantity_gate_rejects_first envMain dbEmpty 1 7 9 (by decide)

/-- C6: `_build_port_runtime`'s resolution step (`resolveInbound`, applied to
every configured port by `buildPortRuntime`) resolves by stored inbound id
first; when the id is unknown it falls back to the port-number match exactly
when that match is unique, and raises `AllocationError` when the port matches
zero or at least two remote inbounds — it never silently picks among
ambiguous port matches. -/
theorem resolveInbound_resolution (byId : List (Int × Py)) (byPort : List (Int × List Py))
    (pp : ProfilePort) :
    (∀ ib, assocFind byId pp.inbound_id = some ib → resolveInbound byId byPort pp = .ok ib)
    ∧ (assocFind byId pp.inbound_id = Option.none →
        ∀ ib, (assocFind byPort pp.port).getD [] = [ib] →
          resolveInbound byId byPort pp = .ok ib)
    ∧ (assocFind byId pp.inbound_id = Option.none →
        (assocFind byPort pp.port).getD [] = [] →
        resolveInbound byId byPort pp =
          .error (.allocError ("Inbound for port " ++ toString pp.port ++ " not found on panel")))
    ∧ (assocFind byId pp.inbound_id = Option.none →
        2 ≤ ((assocFind byPort pp.port).getD []).length →
        resolveInbound byId byPort pp =
          .error (.allocError ("Multiple inbounds found for port " ++ toString pp.port ++
            "; use unique ports"))) := by
  refine ⟨?_, ?_, ?_, ?_⟩
  · intro ib h
    simp [resolveInbound, h]
  · intro h ib hm
    simp [resolveInbound, h, hm]
  · intro h hm
    simp [resolveInbound, h, hm]
  · intro h hm
    unfold resolveInbound
    rw [h]
    rcases hmatch : (assocFind byPort pp.port).getD [] with _ | ⟨a, _ | ⟨b, t⟩⟩ <;>
      simp_all

/-- Witness for C6: an unknown inbound id whose port matches two remote
inbounds is rejected as ambiguous. -/
theorem resolveInbound_resolution_witness :
    resolveInbound [] [(443, [ibMain, ibMain])] ⟨1, 1, 3, 443, 5, 0⟩ =
      .error (.allocError "Multiple inbounds found for port 443; use unique ports") :=
  (resolveInbound_resolution [] [(443, [ibMain, ibMain])] ⟨1, 1, 3, 443, 5, 0⟩).2.2.2
    rfl (by simp [assocFind])

/-- C7: `_build_client_payload` yields, for each supported protocol
(`trojan`, `shadowsocks`, `vmess`, `vless`), a payload with
`expiryTime = 0` when the expiry in days is ≤ 0 and
`now + days·86400·1000` milliseconds otherwise, `totalGB` equal to the
quota in GB times `1024³` bytes, and `enable = True`; every other protocol
raises `AllocationError`. -/
theorem buildClientPayload_fields (protocol email : String) (tg ed nowMs : Int)
    (r : RandVals) :
    ((protocol = "trojan" ∨ protocol = "shadowsocks" ∨ protocol = "vmess" ∨ protocol = "vless") →
      ∃ payload, buildClientPayload protocol email tg ed nowMs r = .ok payload ∧
        objGet payload "expiryTime" =
          .int (if ed ≤ 0 then 0 else nowMs + ed * 24 * 60 * 60 * 1000) ∧
        objGet payload "totalGB" = .int (tg * 1024 * 1024 * 1024) ∧
        objGet payload "enable" = .bool true)
    ∧ (protocol ≠ "trojan" → protocol ≠ "shadowsocks" → protocol ≠ "vmess" → protocol ≠ "vless" →
        buildClientPayload protocol email tg ed nowMs r =
          .error (.allocError ("Unsupported inbound protocol for auto client creation: " ++ protocol))) := by
  constructor
  · rintro (h | h | h | h) <;> subst h <;>
      exact ⟨_, rfl, rfl, rfl, rfl⟩
  · intro h1 h2 h3 h4
    simp [buildClientPayload, h1, h2, h3, h4]

/-- Witness for C7: a vless payload with a positive expiry. -/
theorem buildClientPayload_fields_witness :
    ∃ payload, buildClientPayload "vless" "vip1" 50 30 1000 (randFixed 0) = .ok payload ∧
      objGet payload "expiryTime" = .int ((if (30 : Int) ≤ 0 then 0 else 1000 + 30 * 24 * 60 * 60 * 1000)) ∧
      objGet payload "totalGB" = .int (50 * 1024 * 1024 * 1024) ∧
      objGet payload "enable" = .bool true :=
  (buildClientPayload_fields "vless" "vip1" 50 30 1000 (randFixed 0)).1
    (by simp)

/-- The unclamped free total is bounded by the clamped one. -/
theorem sum_sub_le_totalFree (rts : List PortRuntime) :
    (rts.map (fun r => r.max_active_clients)).sum -
      (rts.map (fun r => r.active_clients)).sum ≤ totalFree rts := by
  induction rts with
  | nil => simp [totalFree]
  | cons r t ih =>
    have h1 : r.max_active_clients - r.active_clients ≤
        max 0 (r.max_active_clients - r.active_clients) := le_max_right _ _
    simp only [totalFree, List.map_cons, List.sum_cons] at ih ⊢
    have ih' := ih
    linarith

/-- With an over-capacity port the bound is strict. -/
theorem sum_sub_lt_totalFree (rts : List PortRuntime)
    (h : ∃ r ∈ rts, r.max_active_clients < r.active_clients) :
    (rts.map (fun r => r.max_active_clients)).sum -
      (rts.map (fun r => r.active_clients)).sum < totalFree rts := by
  induction rts with
  | nil => simp at h
  | cons r t ih =>
    simp only [totalFree, List.map_cons, List.sum_cons]
    rcases h with ⟨w, hw, hlt⟩
    rcases List.mem_cons.mp hw with hw | hw
    · subst hw
      have h1 : w.max_active_clients - w.active_clients < 0 := by omega
      have h2 : (0 : Int) ≤ max 0 (w.max_active_clients - w.active_clients) := le_max_left _ _
      have h3 := sum_sub_le_totalFree t
      simp only [totalFree] at h3
      linarith
    · have h3 := ih ⟨w, hw, hlt⟩
      simp only [totalFree] at h3
      have h1 : r.max_active_clients - r.active_clients ≤
          max 0 (r.max_active_clients - r.active_clients) := le_max_right _ _
      linarith

/-- C10: `get_capacity_report`'s top-level `free` is the *unclamped*
difference `Σ max − Σ active`; it is therefore at most the sum of the
per-port `free` fields (clamped at 0), which is exactly the clamped total
`totalFree` that `_allocate_locked` uses for its feasibility check; and it is
strictly smaller as soon as some port's active count exceeds its maximum
(in which case it can go negative, see the witness). -/
theorem capacityReport_free_unclamped (env : AllocEnv) (rep : CapacityReport)
    (rts : List PortRuntime) (inbounds : List Py)
    (hin : env.listInboundsRes = .ok inbounds)
    (hrt : buildPortRuntime env.ports inbounds = .ok rts)
    (hrep : getCapacityReport env = .ok rep) :
    rep.free = (rts.map (fun r => r.max_active_clients)).sum -
      (rts.map (fun r => r.active_clients)).sum
    ∧ (rep.ports.map (fun e => e.free)).sum = totalFree rts
    ∧ rep.free ≤ (rep.ports.map (fun e => e.free)).sum
    ∧ rep.free ≤ totalFree rts
    ∧ ((∃ r ∈ rts, r.max_active_clients < r.active_clients) → rep.free < totalFree rts) := by
  unfold getCapacityReport at hrep
  split at hrep
  · exact absurd hrep (by simp)
  · split at hrep
    · exact absurd hrep (by simp)
    · split at hrep
      · exact absurd hrep (by simp)
      · split at hrep
        · exact absurd hrep (by simp)
        · rw [hin] at hrep
          simp only at hrep
          rw [hrt] at hrep
          simp only [Except.ok.injEq] at hrep
          subst hrep
          refine ⟨rfl, ?_, ?_, ?_, ?_⟩
          · simp only [List.map_map, totalFree]
            rfl
          · have h2 : (rts.map (fun e =>
                max 0 (e.max_active_clients - e.active_clients))).sum = totalFree rts := rfl
            simp only [List.map_map]
            have := sum_sub_le_totalFree rts
            simpa [Function.comp, totalFree] using this
          · exact sum_sub_le_totalFree rts
          · exact fun h => sum_sub_lt_totalFree rts h

/-- An over-capacity inbound: 3 active clients on a port whose binding
allows 2. -/
def ibOver : Py :=
  .dict [("id", .int 9), ("port", .int 500), ("protocol", .str "trojan"),
         ("clientStats", .list [.dict [("email", .str "a"), ("enable", .bool true)],
                                .dict [("email", .str "b"), ("enable", .bool true)],
                                .dict [("email", .str "c"), ("enable", .bool true)]])]

/-- Environment whose only port is over capacity. -/
def envOver : AllocEnv :=
  { envMain with ports := [⟨1, 1, 9, 500, 2, 0⟩], listInboundsRes := .ok [ibOver] }

/-- Witness for C10: with max = 2 and 3 active clients the top-level `free`
is −1 — negative, and strictly below the clamped total 0. -/
theorem capacityReport_free_unclamped_witness :
    ∃ rep rts, getCapacityReport envOver = .ok rep ∧
      buildPortRuntime envOver.ports [ibOver] = .ok rts ∧
      rep.free = -1 ∧ totalFree rts = 0 ∧ rep.free < totalFree rts ∧ rep.free < 0 := by
  refine ⟨_, _, rfl, rfl, rfl, rfl, ?_, by decide⟩
  have h := capacityReport_free_unclamped envOver _ _ [ibOver] rfl rfl rfl
  exact h.2.2.2.2 (by decide)

/-- C5: when the clamped aggregate free capacity — `totalFree`, the sum over
ports of `max 0 (max_active_clients − active_clients)`, where each port's
active count is (by `buildPortRuntime`/`activeClientCount`) the number of its
`clientStats` entries whose enable flag is not literally `False` — is below
the requested quantity, `allocate_and_create` fails with the
`AllocationError` message carrying the computed free and requested counts,
and the effect trace shows no remote mutation: only the lock acquisition and
the `list_inbounds` read happened, in particular no `add_clients` call. -/
theorem insufficient_capacity_fail_fast (env : AllocEnv) (db : DbState) (pid : Int)
    (q : Nat) (chat : Int) (p : Profile) (panel : Panel)
    (inbounds : List Py) (rts : List PortRuntime)
    (hq : q = 10 ∨ q = 50 ∨ q = 100)
    (hp : env.profile = some p) (hpa : p.active = true)
    (hpn : env.panel = some panel) (hpna : panel.active = true)
    (hports : env.ports.isEmpty = false)
    (hurl : (pyStrip panel.base_url = "") = False)
    (hin : env.listInboundsRes = .ok inbounds)
    (hrt : buildPortRuntime env.ports inbounds = .ok rts)
    (hfree : totalFree rts < (q : Int)) :
    allocateAndCreate env db pid q chat =
      (.error (.allocError ("Insufficient capacity. Free=" ++ toString (totalFree rts) ++
         ", requested=" ++ toString q ++ ".")),
       [Effect.acquireLock pid, Effect.listInbounds])
    ∧ (∀ i cs, Effect.addClients i cs ∉
        (allocateAndCreate env db pid q chat).2) := by
  have hb : (q = 10 || q = 50 || q = 100) = true := by
    rcases hq with h | h | h <;> simp [h]
  have hmain : allocateAndCreate env db pid q chat =
      (.error (.allocError ("Insufficient capacity. Free=" ++ toString (totalFree rts) ++
         ", requested=" ++ toString q ++ ".")),
       [Effect.acquireLock pid, Effect.listInbounds]) := by
    unfold allocateAndCreate allocateAndCreateWith allocLocked
    rw [hb]
    simp only [Bool.true_and, Bool.not_true, Bool.false_eq_true, if_false, ite_false, ite_true]
    rw [hp]
    simp only [hpa, Bool.not_true, Bool.false_eq_true, if_false]
    rw [hpn]
    simp only [hpna, Bool.not_true, Bool.false_eq_true, if_false, hports, hurl]
    rw [hin]
    simp only
    rw [hrt]
    simp only [if_pos hfree, if_false]
  refine ⟨hmain, ?_⟩
  intro i cs
  rw [hmain]
  simp

/-- Environment of the spec's §8 scenario: one port with max 2 and no active
clients. -/
def envCap2 : AllocEnv := { envMain with ports := [⟨1, 1, 7, 443, 2, 0⟩] }

/-- Witness for C5: free = 2, requested = 10 — rejected with exactly the
computed counts in the message, and no `add_clients` effect. -/
theorem insufficient_capacity_fail_fast_witness :
    allocateAndCreate envCap2 dbEmpty 1 10 9 =
      (.error (.allocError "Insufficient capacity. Free=2, requested=10."),
       [Effect.acquireLock 1, Effect.listInbounds])
    ∧ (∀ i cs, Effect.addClients i cs ∉ (allocateAndCreate envCap2 dbEmpty 1 10 9).2) :=
  insufficient_capacity_fail_fast envCap2 dbEmpty 1 10 9 profMain panelMain
    [ibMain] [⟨7, 443, 2, 0, "trojan"⟩]
    (by decide) rfl rfl rfl rfl rfl (by decide) rfl (by rfl) (by decide)

/-- `List.set` then `getD` at the set index. -/
theorem getD_set_self : ∀ (l : List Int) (i : Nat) (v : Int),
    i < l.length → (l.set i v).getD i 0 = v := by
  intro l
  induction l with
  | nil => intro i v h; simp at h
  | cons x t ih =>
    intro i v h
    cases i with
    | zero => rfl
    | succ i => simpa using ih i v (by simpa using h)

/-- `List.set` then `getD` at another index. -/
theorem getD_set_ne : ∀ (l : List Int) (i j : Nat) (v : Int),
    i ≠ j → (l.set i v).getD j 0 = l.getD j 0 := by
  intro l
  induction l with
  | nil => intro i j v _; simp
  | cons x t ih =>
    intro i j v hij
    cases i with
    | zero =>
      cases j with
      | zero => exact absurd rfl hij
      | succ j => simp
    | succ i =>
      cases j with
      | zero => simp
      | succ j => simpa using ih i j v (by omega)

/-- Soundness of the fill-first scan: a returned index is in range and its
port still has a strictly positive remaining capacity. -/
theorem selectFillFirstAux_sound :
    ∀ (rts : List PortRuntime) (used : List Int) (idx j : Nat),
      selectFillFirstAux rts used idx = some j →
      ∃ k, k < rts.length ∧ k < used.length ∧ j = idx + k ∧
        (rts.getD k rtDefault).active_clients + used.getD k 0 <
          (rts.getD k rtDefault).max_active_clients := by
  intro rts
  induction rts with
  | nil => intro used idx j h; simp [selectFillFirstAux] at h
  | cons r t ih =>
    intro used idx j h
    cases used with
    | nil => simp [selectFillFirstAux] at h
    | cons u us =>
      by_cases hc : r.active_clients + u < r.max_active_clients
      · have hj : idx = j := by
          simpa [selectFillFirstAux, hc] using h
        exact ⟨0, by simp, by simp, by omega, by simpa using hc⟩
      · have h' : selectFillFirstAux t us (idx + 1) = some j := by
          simpa [selectFillFirstAux, hc] using h
        obtain ⟨k, hk1, hk2, hk3, hk4⟩ := ih us (idx + 1) j h'
        exact ⟨k + 1, by simpa using hk1, by simpa using hk2, by omega, by simpa using hk4⟩

/-- The staging loop keeps every port's locally-placed count within its
clamped free capacity `max 0 (max − active)`. -/
theorem stageLoop_used_bound (env : AllocEnv) (db : DbState) (p : Profile)
    (rts : List PortRuntime) (emails : List String) :
    ∀ (rem idx : Nat) (last : Int) (staged : List StagedClient) (used : List Int)
      (names : List String) staged' last' used',
      stageLoop env db p rts emails rem idx last staged used names =
        .ok (staged', last', used') →
      used.length = rts.length →
      (∀ i, i < rts.length → used.getD i 0 ≤
        max 0 ((rts.getD i rtDefault).max_active_clients -
          (rts.getD i rtDefault).active_clients)) →
      used'.length = rts.length ∧
      (∀ i, i < rts.length → used'.getD i 0 ≤
        max 0 ((rts.getD i rtDefault).max_active_clients -
          (rts.getD i rtDefault).active_clients)) := by
  intro rem
  induction rem with
  | zero =>
    intro idx last staged used names staged' last' used' h hlen hinv
    simp only [stageLoop, Except.ok.injEq, Prod.mk.injEq] at h
    obtain ⟨-, -, h3⟩ := h
    subst h3
    exact ⟨hlen, hinv⟩
  | succ rem ih =>
    intro idx last staged used names staged' last' used' h hlen hinv
    rcases hname : nextUniqueName db p.pfx p.sfx emails names env.nameFuel last with
      _ | ⟨name, last2, names2⟩
    · simp only [stageLoop, hname] at h
      exact Except.noConfusion h
    · rcases hsel : selectNextPortIndexFillFirst rts used with _ | sidx
      · simp only [stageLoop, hname, hsel] at h
        exact Except.noConfusion h
      · rcases hpay : buildClientPayload (rts.getD sidx rtDefault).protocol name
            p.traffic_gb p.expiry_days env.nowMs (env.randoms idx) with e | client
        · simp only [stageLoop, hname, hsel, hpay] at h
          exact Except.noConfusion h
        · have h' : stageLoop env db p rts emails rem (idx + 1) last2
              (staged ++ [⟨(rts.getD sidx rtDefault).inbound_id, name,
                pyStr (objGet client "subId"), client⟩])
              (used.set sidx (used.getD sidx 0 + 1)) names2 = .ok (staged', last', used') := by
            simpa only [stageLoop, hname, hsel, hpay] using h
          obtain ⟨k, hk1, hk2, hk3, hk4⟩ :=
            selectFillFirstAux_sound rts used 0 sidx hsel
          have hks : k = sidx := by omega
          subst hks
          refine ih (idx + 1) last2 _ _ names2 staged' last' used' h' ?_ ?_
          · simpa using hlen
          · intro i hi
            by_cases hik : i = k
            · subst hik
              rw [getD_set_self used i _ (by omega)]
              have := hinv i hi
              omega
            · rw [getD_set_ne used k i _ (fun hh => hik hh.symm)]
              exact hinv i hi

/-- C4 (amended): the fill-first selector only returns a port index whose
`active_clients + local_used` is strictly below its `max_active_clients`, and
consequently a staging run places at most `max 0 (max − active)` new clients
on each port — so the post-allocation count `active + placed` can exceed a
port's maximum only when the *remote* count alone already exceeded it (in
which case nothing is placed there; see the counterexample for why the
unconditional claim fails). -/
theorem fill_first_respects_free_capacity (env : AllocEnv) (db : DbState)
    (p : Profile) (rts : List PortRuntime) (emails : List String) :
    (∀ (used : List Int) (j : Nat), selectNextPortIndexFillFirst rts used = some j →
      j < rts.length ∧ j < used.length ∧
      (rts.getD j rtDefault).active_clients + used.getD j 0 <
        (rts.getD j rtDefault).max_active_clients)
    ∧ (∀ (q : Nat) (last : Int) staged' last' used',
        stageLoop env db p rts emails q 0 last [] (List.replicate rts.length 0) [] =
          .ok (staged', last', used') →
        ∀ i, i < rts.length → used'.getD i 0 ≤
          max 0 ((rts.getD i rtDefault).max_active_clients -
            (rts.getD i rtDefault).active_clients)) := by
  constructor
  · intro used j h
    obtain ⟨k, hk1, hk2, hk3, hk4⟩ := selectFillFirstAux_sound rts used 0 j h
    have : j = k := by omega
    subst this
    exact ⟨hk1, hk2, hk4⟩
  · intro q last staged' last' used' h i hi
    refine (stageLoop_used_bound env db p rts emails q 0 last [] _ [] staged' last' used'
      h (by simp) ?_).2 i hi
    intro i' hi'
    have : (List.replicate rts.length (0 : Int)).getD i' 0 = 0 := by
      simp [List.getD_eq_getElem?_getD, List.getElem?_replicate, hi']
    rw [this]
    exact le_max_left _ _

/-- The over-capacity staging fixture: port 0 already has 7 remote clients
against a maximum of 5; port 1 is empty with room for 10. -/
def rtsC4 : List PortRuntime := [⟨7, 443, 5, 7, "trojan"⟩, ⟨8, 444, 10, 0, "trojan"⟩]

/-- Counterexample for C4 as stated: a batch of 10 is staged entirely on
port 1 (`local_used = [0, 10]`), yet port 0's `active + newly placed`
is 7 + 0 = 7, which exceeds its `max_active_clients` of 5 — "remote + newly
added never exceeds max" fails for a port that is already over capacity
remotely. -/
theorem fill_first_over_capacity_counterexample :
    Except.map (fun r => r.2.2)
      (stageLoop envMain dbEmpty profMain rtsC4 [] 10 0 0 [] [0, 0] []) =
      .ok ([0, 10] : List Int)
    ∧ ¬((rtsC4.getD 0 rtDefault).active_clients + (0 : Int) ≤
        (rtsC4.getD 0 rtDefault).max_active_clients) := by
  exact ⟨by rfl, by decide⟩

/-- Witness for C4 (amended) at the same fixture: the selector picks port 1
(which still has room), and after the 10-unit staging run every port's
placed count is within its clamped free capacity. -/
theorem fill_first_respects_free_capacity_witness :
    (selectNextPortIndexFillFirst rtsC4 [0, 0] = some 1 ∧
      1 < rtsC4.length ∧ 1 < ([0, 0] : List Int).length ∧
      (rtsC4.getD 1 rtDefault).active_clients + ([0, 0] : List Int).getD 1 0 <
        (rtsC4.getD 1 rtDefault).max_active_clients)
    ∧ (∀ i, i < rtsC4.length → ([0, 10] : List Int).getD i 0 ≤
        max 0 ((rtsC4.getD i rtDefault).max_active_clients -
          (rtsC4.getD i rtDefault).active_clients)) :=
  ⟨⟨rfl, (fill_first_respects_free_capacity envMain dbEmpty profMain rtsC4 []).1 [0, 0] 1 rfl⟩,
   (fill_first_respects_free_capacity envMain dbEmpty profMain rtsC4 []).2 10 0 _ _ [0, 10]
     (by rfl)⟩

/-- C3 (amended): a returned name is `prefix + str(number) + suffix` with the
number strictly above the start; candidates are consumed one per number with
no gaps — every strictly earlier candidate number was rejected — and a
candidate is accepted exactly when `nameAccepted` holds: its lowercase form
is absent from the remote emails and from the batch's claimed names, and its
*exact* form is absent from the issued table (the table check is
case-sensitive, see the counterexample); the accepted name's lowercase form
is claimed in `names_in_request`. -/
theorem nextUniqueName_candidates (db : DbState) (pfx sfx : String)
    (emails names : List String) :
    ∀ (fuel : Nat) (start : Int) (name : String) (n : Int) (names' : List String),
      nextUniqueName db pfx sfx emails names fuel start = some (name, n, names') →
      name = pfx ++ toString n ++ sfx ∧
      start < n ∧
      nameAccepted db emails names name = true ∧
      (∀ m : Int, start < m → m < n →
        nameAccepted db emails names (pfx ++ toString m ++ sfx) = false) ∧
      names' = names ++ [pyLower name] := by
  intro fuel
  induction fuel with
  | zero =>
    intro start name n names' h
    simp [nextUniqueName] at h
  | succ fuel ih =>
    intro start name n names' h
    simp only [nextUniqueName] at h
    split at h
    · rename_i hcond
      obtain ⟨ha, hb, hc, hd, he⟩ := ih (start + 1) name n names' h
      refine ⟨ha, by omega, hc, ?_, he⟩
      intro m hm1 hm2
      by_cases hm : m = start + 1
      · subst hm
        simp only [nameAccepted, hcond, Bool.not_true, Bool.false_and]
      · exact hd m (by omega) hm2
    · split at h
      · rename_i hcond hdb
        obtain ⟨ha, hb, hc, hd, he⟩ := ih (start + 1) name n names' h
        refine ⟨ha, by omega, hc, ?_, he⟩
        intro m hm1 hm2
        by_cases hm : m = start + 1
        · subst hm
          simp only [nameAccepted, hdb, Bool.not_true, Bool.and_false]
        · exact hd m (by omega) hm2
      · rename_i hcond hdb
        simp only [Option.some.injEq, Prod.mk.injEq] at h
        obtain ⟨h1, h2, h3⟩ := h
        subst h1; subst h2; subst h3
        refine ⟨rfl, by omega, ?_, ?_, rfl⟩
        · simp only [nameAccepted, Bool.not_eq_true'] at hcond hdb ⊢
          simp [hcond, hdb]
        · intro m hm1 hm2
          omega

/-- A database already containing an issued name `vip1` (all lowercase). -/
def dbC3 : DbState := ⟨[], [⟨2, 1, 7, 1, "vip1", "s0", 0⟩]⟩

/-- Counterexample for C3 as stated: with prefix `VIP` the first candidate
`VIP1` is *accepted* by `_next_unique_name` although its lowercase form
`vip1` is already present among the issued-table names — the
`WHERE config_name = ?` check compares the exact (BINARY-collated) name, not
the lowercase form, so "accepted only if the lowercase form is absent from
the persisted issued_configs table" fails. -/
theorem nextUniqueName_case_sensitive_counterexample :
    nextUniqueName dbC3 "VIP" "" [] [] 5 0 = some ("VIP1", 1, ["vip1"]) ∧
    pyLower "VIP1" ∈ dbC3.issued.map (fun r => r.config_name) :=
  ⟨by rfl, by decide⟩

/-- Witness for C3 (amended): starting above 0 with remote email `vip1`
taken, candidate 1 is burned and candidate 2 is accepted and claimed. -/
theorem nextUniqueName_candidates_witness :
    "vip2" = "vip" ++ toString (2 : Int) ++ "" ∧ (0 : Int) < 2 ∧
    nameAccepted dbC3 ["vip1"] [] "vip2" = true ∧
    (∀ m : Int, 0 < m → m < 2 →
      nameAccepted dbC3 ["vip1"] [] ("vip" ++ toString m ++ "") = false) ∧
    ["vip2"] = [] ++ [pyLower "vip2"] :=
  nextUniqueName_candidates dbC3 "vip" "" ["vip1"] [] 10 0 "vip2" 2 ["vip2"] (by rfl)

/-- Unfolding of the acceptance predicate into its three conditions. -/
theorem nameAccepted_iff (db : DbState) (emails names : List String) (name : String) :
    nameAccepted db emails names name = true ↔
      pyLower name ∉ emails ∧ pyLower name ∉ names ∧
      db.issued.any (fun row => row.config_name = name) = false := by
  simp [nameAccepted, not_or, and_assoc]

/-- The staging loop hands out pairwise-distinct names (distinct even after
lowercasing) that are all absent from the issued table, one per unit. -/
theorem stageLoop_staged_names (env : AllocEnv) (db : DbState) (p : Profile)
    (rts : List PortRuntime) (emails : List String) :
    ∀ (rem idx : Nat) (last : Int) (staged : List StagedClient) (used : List Int)
      (names : List String) staged' last' used',
      stageLoop env db p rts emails rem idx last staged used names =
        .ok (staged', last', used') →
      (∀ a ∈ staged, pyLower a.config_name ∈ names) →
      ((staged.map (fun a => a.config_name)).map pyLower).Nodup →
      (∀ a ∈ staged, db.issued.any (fun row => row.config_name = a.config_name) = false) →
      staged'.length = staged.length + rem ∧
      ((staged'.map (fun a => a.config_name)).map pyLower).Nodup ∧
      (∀ a ∈ staged', db.issued.any (fun row => row.config_name = a.config_name) = false) := by
  intro rem
  induction rem with
  | zero =>
    intro idx last staged used names staged' last' used' h hmem hnd hdb
    simp only [stageLoop, Except.ok.injEq, Prod.mk.injEq] at h
    obtain ⟨h1, -, -⟩ := h
    subst h1
    exact ⟨by omega, hnd, hdb⟩
  | succ rem ih =>
    intro idx last staged used names staged' last' used' h hmem hnd hdb
    rcases hname : nextUniqueName db p.pfx p.sfx emails names env.nameFuel last with
      _ | ⟨name, last2, names2⟩
    · simp only [stageLoop, hname] at h
      exact Except.noConfusion h
    · rcases hsel : selectNextPortIndexFillFirst rts used with _ | sidx
      · simp only [stageLoop, hname, hsel] at h
        exact Except.noConfusion h
      · rcases hpay : buildClientPayload (rts.getD sidx rtDefault).protocol name
            p.traffic_gb p.expiry_days env.nowMs (env.randoms idx) with e | client
        · simp only [stageLoop, hname, hsel, hpay] at h
          exact Except.noConfusion h
        · have h' : stageLoop env db p rts emails rem (idx + 1) last2
              (staged ++ [⟨(rts.getD sidx rtDefault).inbound_id, name,
                pyStr (objGet client "subId"), client⟩])
              (used.set sidx (used.getD sidx 0 + 1)) names2 = .ok (staged', last', used') := by
            simpa only [stageLoop, hname, hsel, hpay] using h
          obtain ⟨-, -, hacc, -, he⟩ :=
            nextUniqueName_candidates db p.pfx p.sfx emails names env.nameFuel last
              name last2 names2 hname
          rw [nameAccepted_iff] at hacc
          obtain ⟨-, hacc2, hacc3⟩ := hacc
          subst he
          have hnotold : pyLower name ∉ (staged.map (fun a => a.config_name)).map pyLower := by
            intro hin
            simp only [List.map_map, List.mem_map] at hin
            obtain ⟨a, ha, haeq⟩ := hin
            exact hacc2 (haeq ▸ hmem a ha)
          obtain ⟨l1, l2, l3⟩ := ih (idx + 1) last2 _ _ _ staged' last' used' h'
            (by
              intro a ha
              rcases List.mem_append.mp ha with ha | ha
              · exact List.mem_append_left _ (hmem a ha)
              · simp only [List.mem_singleton] at ha
                subst ha
                exact List.mem_append_right _ (by simp))
            (by
              simp only [List.map_append, List.nodup_append]
              refine ⟨hnd, by simp, ?_⟩
              intro x hx
              simp only [List.map_map] at hx ⊢
              simp only [List.map_cons, List.map_nil, List.mem_singleton]
              intro hx2
              subst hx2
              exact hnotold (by simpa [List.map_map] using hx))
            (by
              intro a ha
              rcases List.mem_append.mp ha with ha | ha
              · exact hdb a ha
              · simp only [List.mem_singleton] at ha
                subst ha
                exact hacc3)
          refine ⟨?_, l2, l3⟩
          rw [l1]
          simp
          omega

/-- Every client processed by the link loop contributes at least one link. -/
theorem linkLoop_links_ge (env : AllocEnv) (subRead : XUISettings → Except Err Bool)
    (settings : XUISettings) (byId : List (Int × Py)) (baseUrl : String) :
    ∀ (staged : List StagedClient) (acc out : List String),
      (linkLoop env subRead settings byId baseUrl staged acc).1 = .ok out →
      acc.length + staged.length ≤ out.length := by
  intro staged
  induction staged with
  | nil =>
    intro acc out h
    simp only [linkLoop] at h
    have h' : acc = out := by simpa using h
    subst h'
    simp
  | cons a rest ih =>
    intro acc out h
    rcases hsub : subRead settings with e | subEn
    · simp [linkLoop, hsub] at h
    · rcases hstep : (linkStepFetch env subEn a.sub_id).1 with e | links0
      · simp [linkLoop, hsub, hstep] at h
      · simp only [linkLoop, hsub, hstep] at h
        generalize hL : (if links0.isEmpty = true then
            match buildDirectLinkFallback (assocFind byId a.inbound_id) a.client
                a.config_name baseUrl with
            | some f => [f]
            | Option.none => [] else links0) = L at h
        split at h
        · simp at h
        · rename_i hne
          have h' : (linkLoop env subRead settings byId baseUrl rest (acc ++ L)).1 = .ok out := h
          have hlen := ih (acc ++ L) out h'
          have hL1 : 1 ≤ L.length := by
            cases L with
            | nil => simp at hne
            | cons x xs => simp
          simp only [List.length_append] at hlen
          simp only [List.length_cons]
          omega

/-- C1 (amended): every successful allocation of quantity `q` appends exactly
`q` new `IssuedConfig` rows to the table, whose `config_name`s keep the whole
table duplicate-free (the new names are pairwise distinct — even after
lowercasing — and each was checked absent from the pre-existing rows), and
the returned link list has *at least* `q` entries: one or more per created
client.  (Exactly `q` holds only when each client yields a single link; a
subscription body carrying several links contributes all of them, see the
counterexample.) -/
theorem allocation_rows_and_links (env : AllocEnv) (db : DbState) (pid : Int)
    (q : Nat) (chat : Int) (res : AllocationResult) (db' : DbState) (tr : List Effect)
    (hok : allocateAndCreateSub env db pid q chat = (.ok (res, db'), tr))
    (hnodup : (db.issued.map (fun r => r.config_name)).Nodup) :
    res.quantity = q ∧
    (∃ rows, db'.issued = db.issued ++ rows ∧ rows.length = q) ∧
    (db'.issued.map (fun r => r.config_name)).Nodup ∧
    q ≤ res.links.length := by
  have h1 : (allocLocked (subEnableSpecRead env) env db q chat).1 = .ok (res, db') := by
    by_cases hg : (q = 10 || q = 50 || q = 100) = true
    · have h2 := congrArg Prod.fst hok
      simpa [allocateAndCreateSub, allocateAndCreateWith, hg] using h2
    · have h2 := congrArg Prod.fst hok
      simp [allocateAndCreateSub, allocateAndCreateWith, hg] at h2
  simp only [allocLocked] at h1
  split at h1
  · simp at h1
  · rename_i p hp
    split at h1
    · simp at h1
    · split at h1
      · simp at h1
      · rename_i panel hpanel
        split at h1
        · simp at h1
        · split at h1
          · simp at h1
          · split at h1
            · simp at h1
            · split at h1
              · simp at h1
              · rename_i inbounds hinb
                split at h1
                · simp at h1
                · rename_i rts hrts
                  split at h1
                  · simp at h1
                  · split at h1
                    · simp at h1
                    · rename_i lastNumber hcounter
                      split at h1
                      · simp at h1
                      · rename_i staged lastFinal usedF hstage
                        split at h1
                        · simp at h1
                        · split at h1
                          · simp at h1
                          · rename_i byId hbyid
                            split at h1
                            · simp at h1
                            · rename_i settings hset
                              split at h1
                              · simp at h1
                              · rename_i allLinks hlinks
                                simp only [Except.ok.injEq, Prod.mk.injEq] at h1
                                obtain ⟨hres, hdb'⟩ := h1
                                subst hres
                                subst hdb'
                                have hdb1iss :
                                    (if (assocFind db.counters p.id).isSome then db
                                     else { db with counters := db.counters ++ [(p.id, 0)] }).issued
                                      = db.issued := by
                                  split <;> rfl
                                obtain ⟨hlen, hnd, hfresh⟩ :=
                                  stageLoop_staged_names env _ p rts
                                    (extractExistingEmails inbounds) q 0 lastNumber [] _ []
                                    staged lastFinal usedF hstage
                                    (by simp) (by simp) (by simp)
                                rw [hdb1iss] at hfresh
                                simp only [List.length_nil] at hlen
                                refine ⟨rfl, ⟨staged.map (fun a =>
                                    { profile_id := p.id, panel_id := panel.id,
                                      inbound_id := a.inbound_id, chat_id := chat,
                                      config_name := a.config_name, sub_id := a.sub_id,
                                      created_at := env.now : IssuedConfig }), ?_, ?_⟩, ?_, ?_⟩
                                · simp [hdb1iss]
                                · simp only [List.length_map]
                                  omega
                                · simp only [hdb1iss, List.map_append, List.nodup_append,
                                    List.map_map]
                                  refine ⟨hnodup, ?_, ?_⟩
                                  · have hx : (staged.map (fun a =>
                                        ({ profile_id := p.id, panel_id := panel.id,
                                           inbound_id := a.inbound_id, chat_id := chat,
                                           config_name := a.config_name, sub_id := a.sub_id,
                                           created_at := env.now : IssuedConfig }))).map
                                          (fun r => r.config_name)
                                        = staged.map (fun a => a.config_name) := by
                                      simp [List.map_map]
                                    have hnd' : (staged.map (fun a => a.config_name)).Nodup :=
                                      List.Nodup.of_map pyLower hnd
                                    simpa [List.map_map] using hnd'
                                  · intro x hx
                                    simp only [List.mem_map] at hx
                                    obtain ⟨row, hrow, hrowx⟩ := hx
                                    intro hx2
                                    simp only [Function.comp, List.mem_map] at hx2
                                    obtain ⟨a, ha, hax⟩ := hx2
                                    have := hfresh a ha
                                    simp only [List.any_eq_false, decide_eq_true_eq] at this
                                    exact this row hrow (by rw [hrowx]; rw [← hax])
                                · have hge := linkLoop_links_ge env (subEnableSpecRead env)
                                    settings byId panel.base_url staged [] allLinks hlinks
                                  simp only [List.length_nil] at hge
                                  show q ≤ allLinks.length
                                  omega

/-- Counterexample for C1 as stated: with a subscription body carrying two
links per client, a *successful* allocation of quantity 10 inserts exactly
10 rows but returns 20 links — `AllocationResult.links` does not have
"exactly q entries". -/
theorem allocation_exact_link_count_counterexample :
    Except.map (fun r => (r.1.quantity, r.1.links.length, r.2.issued.length))
      (allocateAndCreateSub envMain dbEmpty 1 10 7).1 = .ok (10, 20, 10) := by rfl

/-- `envMain` with a single-link subscription body. -/
def envSingle : AllocEnv := { envMain with fetchSub := fun _ => .ok "vless://only" }

/-- The concrete single-link allocation run. -/
def runSingle : Except Err (AllocationResult × DbState) × List Effect :=
  allocateAndCreateSub envSingle dbEmpty 1 10 7

/-- Its allocation result. -/
def resSingle : AllocationResult :=
  match runSingle.1 with
  | .ok r => r.1
  | .error _ => ⟨"", 0, []⟩

/-- Its resulting database state. -/
def dbSingle : DbState :=
  match runSingle.1 with
  | .ok r => r.2
  | .error _ => dbEmpty

/-- Its effect trace. -/
def trSingle : List Effect := runSingle.2

/-- Witness for C1 (amended) at a concrete successful run of quantity 10. -/
theorem allocation_rows_and_links_witness :
    resSingle.quantity = 10 ∧
    (dbSingle.issued.map (fun r => r.config_name)).Nodup ∧
    dbSingle.issued.length = dbEmpty.issued.length + 10 ∧
    10 ≤ resSingle.links.length := by
  obtain ⟨h1, ⟨rows, hr1, hr2⟩, h3, h4⟩ :=
    allocation_rows_and_links envSingle dbEmpty 1 10 7 resSingle dbSingle trSingle
      (by rfl) (by simp [dbEmpty])
  refine ⟨h1, h3, ?_, h4⟩
  rw [hr1]
  simp [hr2]

/-- C2: the code as written cannot take the managed-subscription branch at
all — on a fully healthy environment (active profile and panel, resolvable
port, sufficient capacity, successful `add_clients` and `get_settings`), the
allocation terminates with an `AttributeError`, because `_allocate_locked`
reads `settings.sub_enable` (`allocator.py:225`) while the `slots=True`
dataclass `XUISettings` (`xui_client.py:15-19`) has no `sub_enable`
attribute.  This is neither an `AllocationError` nor a handled fetch
failure, contradicting the documented fetch-then-fallback behaviour. -/
theorem sub_enable_attribute_error :
    (allocateAndCreate envMain dbEmpty 1 10 7).1 =
      .error (.attributeError "'XUISettings' object has no attribute 'sub_enable'") := by rfl

/-- C8: `_build_direct_link_fallback` returns `None` — never a malformed
string — whenever the resolved host is empty or the resolved port is not
positive, and whenever the protocol-required credential is missing (the
client's `id` for vless/vmess, its `password` for trojan/shadowsocks); and
whenever it does return a string, the resolved host and port are usable and
the string is exactly one of the four URI shapes — `vless://cred@host:port?…`,
`trojan://cred@host:port?…`, `ss://base64(method:password)@host:port#…`, or
`vmess://base64(json)` with the host, port and id carried in the JSON
fields — each embedding the resolved host, port and the non-empty
credential. -/
theorem buildDirectLinkFallback_shape (ib : Py) (client : List (String × Py))
    (configName baseUrl : String) :
    (((extractHostPort baseUrl ib (parseJsonObj (pyGet ib "streamSettings"))).1 = "" ∨
      (extractHostPort baseUrl ib (parseJsonObj (pyGet ib "streamSettings"))).2 ≤ 0) →
      buildDirectLinkFallback (some ib) client configName baseUrl = Option.none)
    ∧ ((pyLower (pyStrOrEmpty (pyGet ib "protocol")) = "vless" ∨
        pyLower (pyStrOrEmpty (pyGet ib "protocol")) = "vmess") →
        pyStrOrEmpty (objGet client "id") = "" →
        buildDirectLinkFallback (some ib) client configName baseUrl = Option.none)
    ∧ ((pyLower (pyStrOrEmpty (pyGet ib "protocol")) = "trojan" ∨
        pyLower (pyStrOrEmpty (pyGet ib "protocol")) = "shadowsocks") →
        pyStrOrEmpty (objGet client "password") = "" →
        buildDirectLinkFallback (some ib) client configName baseUrl = Option.none)
    ∧ (∀ s, buildDirectLinkFallback (some ib) client configName baseUrl = some s →
        (extractHostPort baseUrl ib (parseJsonObj (pyGet ib "streamSettings"))).1 ≠ "" ∧
        0 < (extractHostPort baseUrl ib (parseJsonObj (pyGet ib "streamSettings"))).2 ∧
        ((pyStrOrEmpty (objGet client "id") ≠ "" ∧ ∃ query,
            s = vlessLink (pyStrOrEmpty (objGet client "id"))
              (extractHostPort baseUrl ib (parseJsonObj (pyGet ib "streamSettings"))).1
              (extractHostPort baseUrl ib (parseJsonObj (pyGet ib "streamSettings"))).2
              query (quoteSafe configName))
         ∨ (pyStrOrEmpty (objGet client "password") ≠ "" ∧ ∃ query,
            s = trojanLink (pyStrOrEmpty (objGet client "password"))
              (extractHostPort baseUrl ib (parseJsonObj (pyGet ib "streamSettings"))).1
              (extractHostPort baseUrl ib (parseJsonObj (pyGet ib "streamSettings"))).2
              query (quoteSafe configName))
         ∨ (pyStrOrEmpty (objGet client "password") ≠ "" ∧
            s = ssLink (b64UrlsafeNoPad (utf8Bytes
                (pyStr (pyOr (objGet (parseJsonObj (pyGet ib "settings")) "method")
                   (.str "aes-128-gcm")) ++ ":" ++ pyStrOrEmpty (objGet client "password"))))
              (extractHostPort baseUrl ib (parseJsonObj (pyGet ib "streamSettings"))).1
              (extractHostPort baseUrl ib (parseJsonObj (pyGet ib "streamSettings"))).2
              (quoteSafe configName))
         ∨ (pyStrOrEmpty (objGet client "id") ≠ "" ∧ ∃ typeF hostF pathF tls sni,
            s = vmessLink (b64Encode (utf8Bytes (jsonObjOfStrs (vmessFields configName
              (extractHostPort baseUrl ib (parseJsonObj (pyGet ib "streamSettings"))).1
              (extractHostPort baseUrl ib (parseJsonObj (pyGet ib "streamSettings"))).2
              (pyStrOrEmpty (objGet client "id"))
              (pyStr (pyOr (objGet client "security") (.str "auto")))
              (pyStr (pyOr (objGet (parseJsonObj (pyGet ib "streamSettings")) "network")
                (.str "tcp")))
              typeF hostF pathF tls sni))))))) := by
  by_cases ht : (!pyTruthy ib) = true
  · have hr : buildDirectLinkFallback (some ib) client configName baseUrl = Option.none := by
      simp only [buildDirectLinkFallback, ht, if_true]
    refine ⟨fun _ => hr, fun _ _ => hr, fun _ _ => hr, ?_⟩
    intro s hs
    rw [hr] at hs
    exact Option.noConfusion hs
  · by_cases hhp :
        ((extractHostPort baseUrl ib (parseJsonObj (pyGet ib "streamSettings"))).1 = "" ∨
         (extractHostPort baseUrl ib (parseJsonObj (pyGet ib "streamSettings"))).2 ≤ 0)
    · have hr : buildDirectLinkFallback (some ib) client configName baseUrl = Option.none := by
        rcases hhp with h | h <;>
          simp only [buildDirectLinkFallback, ht, if_false, Bool.false_eq_true] <;>
          simp [h]
      refine ⟨fun _ => hr, fun _ _ => hr, fun _ _ => hr, ?_⟩
      intro s hs
      rw [hr] at hs
      exact Option.noConfusion hs
    · push_neg at hhp
      obtain ⟨hh, hp0⟩ := hhp
      have hp0' : 0 < (extractHostPort baseUrl ib (parseJsonObj (pyGet ib "streamSettings"))).2 := by
        omega
      have hcond : ((extractHostPort baseUrl ib (parseJsonObj (pyGet ib "streamSettings"))).1 = ""
          || (extractHostPort baseUrl ib (parseJsonObj (pyGet ib "streamSettings"))).2 ≤ 0) = false := by
        simp [hh]
        omega
      refine ⟨fun h => absurd h (by push_neg; exact ⟨hh, by omega⟩), ?_, ?_, ?_⟩
      · rintro (hv | hv) hid <;>
          simp [buildDirectLinkFallback, ht, hcond, hv, hid]
      · rintro (hv | hv) hpw <;>
          simp [buildDirectLinkFallback, ht, hcond, hv, hpw]
      · intro s hs
        refine ⟨hh, hp0', ?_⟩
        simp only [buildDirectLinkFallback, ht, Bool.false_eq_true, if_false, hcond] at hs
        by_cases hv : pyLower (pyStrOrEmpty (pyGet ib "protocol")) = "vless"
        · rw [if_pos hv] at hs
          by_cases hid : pyStrOrEmpty (objGet client "id") = ""
          · rw [if_pos hid] at hs
            exact Option.noConfusion hs
          · rw [if_neg hid] at hs
            left
            exact ⟨hid, _, (Option.some.injEq _ _).mp hs.symm⟩
        · rw [if_neg hv] at hs
          by_cases htr : pyLower (pyStrOrEmpty (pyGet ib "protocol")) = "trojan"
          · rw [if_pos htr] at hs
            by_cases hpw : pyStrOrEmpty (objGet client "password") = ""
            · rw [if_pos hpw] at hs
              exact Option.noConfusion hs
            · rw [if_neg hpw] at hs
              right; left
              exact ⟨hpw, _, (Option.some.injEq _ _).mp hs.symm⟩
          · rw [if_neg htr] at hs
            by_cases hss : pyLower (pyStrOrEmpty (pyGet ib "protocol")) = "shadowsocks"
            · rw [if_pos hss] at hs
              by_cases hpw : pyStrOrEmpty (objGet client "password") = ""
              · rw [if_pos hpw] at hs
                exact Option.noConfusion hs
              · rw [if_neg hpw] at hs
                right; right; left
                exact ⟨hpw, (Option.some.injEq _ _).mp hs.symm⟩
            · rw [if_neg hss] at hs
              by_cases hvm : pyLower (pyStrOrEmpty (pyGet ib "protocol")) = "vmess"
              · rw [if_pos hvm] at hs
                by_cases hid : pyStrOrEmpty (objGet client "id") = ""
                · rw [if_pos hid] at hs
                  exact Option.noConfusion hs
                · rw [if_neg hid] at hs
                  right; right; right
                  exact ⟨hid, _, _, _, _, _, (Option.some.injEq _ _).mp hs.symm⟩
              · rw [if_neg hvm] at hs
                exact Option.noConfusion hs

/-- A vless inbound used by the C8 witness. -/
def ibVless : Py := .dict [("id", .int 5), ("port", .int 8443), ("protocol", .str "vless")]

/-- Witness for C8: a scheme-less panel URL resolves to an empty host, so the
builder yields `None`; and with a resolvable host/port but no client `id`,
the vless branch also yields `None`. -/
theorem buildDirectLinkFallback_shape_witness :
    buildDirectLinkFallback (some ibVless) [] "cfg" "panel.example" = Option.none ∧
    buildDirectLinkFallback (some ibVless) [] "cfg" "https://panel.example:2053" = Option.none :=
  ⟨(buildDirectLinkFallback_shape ibVless [] "cfg" "panel.example").1 (Or.inl (by rfl)),
   (buildDirectLinkFallback_shape ibVless [] "cfg" "https://panel.example:2053").2.1
     (Or.inl (by rfl)) (by rfl)⟩
